import Mathlib

/-!
# Verification of the `nes-rs` 6502 CPU core

This file is a shallow embedding, in Lean 4, of the CPU interpreter of the
`nes-rs` repository (`src/nes-core/src/cpu.rs`, `src/nes-core/src/cpu_ops.rs`,
`src/nes-core/src/memory.rs`), together with theorems settling a list of
claims about it.

Embedding conventions (all machine integers are `Nat`):

* a `u8` value is a `Nat` below 256, a `u16` value a `Nat` below 65536; every
  write that the Rust code performs with wrapping arithmetic is rendered with
  an explicit `% 256` / `% 65536`;
* `(hi << 8) | lo` on bytes is rendered `hi * 256 + lo`; `x & 0xFF` as
  `x % 256`; `x >> 8` as `x / 256`; `x & 0xFF00` (page of `x`) compares as
  `x / 256`; `0x0100 | s` on a stack byte `s` as `0x0100 + s`; all of these
  agree with the bitwise source expressions on the value ranges the Rust
  types guarantee;
* single-bit tests `(x & 0x100) != 0`, `(x & 0x80) != 0`, `(x & 0x01) != 0`
  are rendered `x / 256 % 2 ≠ 0`, `x / 128 % 2 ≠ 0`, `x % 2 ≠ 0`;
* operations on the packed status register `P` (flag or/and-not masks, the
  `& 0xCF` masks of PLP/RTI, the ADC/SBC overflow formula) keep the genuine
  bitwise operators `|||`, `&&&`, `^^^`, with u8 complement `!x` rendered
  `255 ^^^ x`;
* the external bus (`Memory` trait) is modelled as a total function
  `Nat → Nat`; a load returns `mem (addr % 65536) % 256` (the trait returns
  some byte); every bus transaction is also recorded in an event trace so
  that dummy reads and cycle/bus accounting are observable;
* the unchecked (non-`wrapping_add`) `u16` additions of the source —
  `self.reg_pc += 1` in `execute_single_instruction` and
  `base_addr + self.reg_x as u16` in the `AbsoluteX` arm — wrap modulo 2^16
  in the main model (release-profile semantics, overflow checks disabled).
  Their debug-profile semantics (overflow checks on, overflow aborts) is
  modelled separately by `Option`-valued variants marked `_checked`.
-/

namespace NesRs

/-- A single bus transaction performed through the `Memory` trait. -/
inductive BusEv where
  | load (addr : Nat)
  | store (addr : Nat) (val : Nat)
deriving DecidableEq

/-- The register file of `struct Cpu` (`cpu.rs`).  `reg_a`, `reg_x`, `reg_y`,
`reg_s`, `reg_p` are u8 values, `reg_pc` a u16 value, `master_clock` a u64
counter (incremented by `CPU_CLOCK_DIV` per CPU cycle). -/
structure Cpu where
  reg_a : Nat
  reg_x : Nat
  reg_y : Nat
  reg_pc : Nat
  reg_s : Nat
  reg_p : Nat
  master_clock : Nat
deriving DecidableEq

/-- `pub const CPU_CLOCK_DIV: u64 = 12`. -/
def CPU_CLOCK_DIV : Nat := 12

/-- The whole machine state a CPU step acts on: registers, the bus (modelled
as a byte function) and the chronological trace of bus transactions. -/
structure St where
  cpu : Cpu
  mem : Nat → Nat
  trace : List BusEv

/-- The `memory.cpu_load8(addr)` bus call: returns the byte at `addr` and
records the transaction. -/
def cpu_load8 (st : St) (addr : Nat) : Nat × St :=
  (st.mem (addr % 65536) % 256,
   { st with trace := st.trace ++ [BusEv.load (addr % 65536)] })

/-- The `memory.cpu_store8(addr, val)` bus call: updates the byte at `addr`
and records the transaction. -/
def cpu_store8 (st : St) (addr val : Nat) : St :=
  { st with
    mem := fun a => if a = addr % 65536 then val % 256 else st.mem a,
    trace := st.trace ++ [BusEv.store (addr % 65536) (val % 256)] }

/-- `self.master_clock += CPU_CLOCK_DIV` (one CPU cycle). -/
def tick (st : St) : St :=
  { st with cpu := { st.cpu with master_clock := st.cpu.master_clock + CPU_CLOCK_DIV } }

/-- Register update helper: `self.reg_a = v`. -/
def withA (st : St) (v : Nat) : St := { st with cpu := { st.cpu with reg_a := v } }

/-- Register update helper: `self.reg_x = v`. -/
def withX (st : St) (v : Nat) : St := { st with cpu := { st.cpu with reg_x := v } }

/-- Register update helper: `self.reg_y = v`. -/
def withY (st : St) (v : Nat) : St := { st with cpu := { st.cpu with reg_y := v } }

/-- Register update helper: `self.reg_pc = v`. -/
def withPC (st : St) (v : Nat) : St := { st with cpu := { st.cpu with reg_pc := v } }

/-- Register update helper: `self.reg_s = v`. -/
def withS (st : St) (v : Nat) : St := { st with cpu := { st.cpu with reg_s := v } }

/-- Register update helper: `self.reg_p = v`. -/
def withP (st : St) (v : Nat) : St := { st with cpu := { st.cpu with reg_p := v } }

/-- Register update helper: `self.master_clock = v`. -/
def withClock (st : St) (v : Nat) : St :=
  { st with cpu := { st.cpu with master_clock := v } }

/-- The `Flags` enum of `cpu.rs`: flags of the `P` register.  Note that it has
no variant for bits 4 (B, `0x10`) and 5 (U, `0x20`). -/
inductive Flags where
  | Carry
  | Zero
  | InterruptDisable
  | Decimal
  | Overflow
  | Negative
deriving DecidableEq

/-- The discriminant values of the `Flags` enum (`Carry = 0x01`, ...). -/
def Flags.val : Flags → Nat
  | .Carry => 0x01
  | .Zero => 0x02
  | .InterruptDisable => 0x04
  | .Decimal => 0x08
  | .Overflow => 0x40
  | .Negative => 0x80

/-- The pure computation of `Cpu::set_flag` on the `P` byte:
`reg_p |= flag` when setting, `reg_p &= !flag` when clearing
(u8 complement rendered `255 ^^^ flag`). -/
def setFlagP (p : Nat) (flag : Flags) (value : Prop) [Decidable value] : Nat :=
  if value then p ||| flag.val else p &&& (255 ^^^ flag.val)

/-- `Cpu::set_flag`. -/
def setFlag (st : St) (flag : Flags) (value : Prop) [Decidable value] : St :=
  withP st (setFlagP st.cpu.reg_p flag value)

/-- `Cpu::get_flag`: `(self.reg_p & flag as u8) != 0`. -/
def getFlag (st : St) (flag : Flags) : Prop :=
  st.cpu.reg_p &&& flag.val ≠ 0

instance getFlagDecidable (st : St) (flag : Flags) : Decidable (getFlag st flag) := by
  unfold getFlag
  exact inferInstance

/-- The `AddressingMode` enum of `cpu.rs`. -/
inductive AddressingMode where
  | Implicit
  | ZeroPage
  | ZeroPageX
  | ZeroPageY
  | Absolute
  | AbsoluteX
  | AbsoluteY
  | Immediate
  | Relative
  | Indirect
  | IndexedIndirect
  | IndirectIndexed
deriving DecidableEq

/-- `Cpu::get_operand_addr`.  Returns the resolved operand address and the
updated machine state; `is_read` tells whether the consuming instruction is a
pure reader (affects the dummy read of the indexed absolute and `(zp),Y`
modes).  Bus traffic and cycle charges follow the source line by line. -/
def get_operand_addr (addr_mode : AddressingMode) (is_read : Bool) (st : St) : Nat × St :=
  match addr_mode with
  | .Implicit =>
      -- cycle 1: read next instruction byte and throw it away
      let (_, st) := cpu_load8 st st.cpu.reg_pc
      let st := tick st
      (0, st)
  | .ZeroPage =>
      -- cycle 1: load immediate 1 byte address
      let (arg, st) := cpu_load8 st st.cpu.reg_pc
      let st := withPC st ((st.cpu.reg_pc + 1) % 65536)
      let st := tick st
      (arg, st)
  | .ZeroPageX =>
      -- cycle 1: load immediate 1 byte address
      let (arg, st) := cpu_load8 st st.cpu.reg_pc
      let st := withPC st ((st.cpu.reg_pc + 1) % 65536)
      let st := tick st
      -- cycle 2: dummy read from unindexed address, add X to address
      let (_, st) := cpu_load8 st arg
      let st := tick st
      let arg := (arg + st.cpu.reg_x) % 256
      (arg, st)
  | .ZeroPageY =>
      -- cycle 1: load immediate 1 byte address
      let (arg, st) := cpu_load8 st st.cpu.reg_pc
      let st := withPC st ((st.cpu.reg_pc + 1) % 65536)
      let st := tick st
      -- cycle 2: dummy read from unindexed address, add Y to address
      let (_, st) := cpu_load8 st arg
      let st := tick st
      let arg := (arg + st.cpu.reg_y) % 256
      (arg, st)
  | .Absolute =>
      -- cycle 1: load low address byte
      let (addr_low, st) := cpu_load8 st st.cpu.reg_pc
      let st := withPC st ((st.cpu.reg_pc + 1) % 65536)
      let st := tick st
      -- cycle 2: load high address byte
      let (addr_high, st) := cpu_load8 st st.cpu.reg_pc
      let st := withPC st ((st.cpu.reg_pc + 1) % 65536)
      let st := tick st
      (addr_high * 256 + addr_low, st)
  | .AbsoluteX =>
      -- cycle 1: load low addr byte
      let (addr_low, st) := cpu_load8 st st.cpu.reg_pc
      let st := withPC st ((st.cpu.reg_pc + 1) % 65536)
      let st := tick st
      -- cycle 2: load high addr byte
      let (addr_high, st) := cpu_load8 st st.cpu.reg_pc
      let st := withPC st ((st.cpu.reg_pc + 1) % 65536)
      let st := tick st
      let base_addr := addr_high * 256 + addr_low
      -- u16 addition `base_addr + self.reg_x as u16` (wraps modulo 2^16 with
      -- overflow checks disabled; see `absolute_x_real_addr_checked`)
      let real_addr := (base_addr + st.cpu.reg_x) % 65536
      -- write and read-modify-write instructions always read the unfixed
      -- effective addr once without using the value, read instructions only
      -- have this wasted read on a page crossing
      if ¬ is_read ∨ real_addr / 256 ≠ base_addr / 256 then
        let (_, st) := cpu_load8 st (base_addr / 256 * 256 + real_addr % 256)
        let st := tick st
        (real_addr, st)
      else
        (real_addr, st)
  | .AbsoluteY =>
      -- cycle 1: load low addr byte
      let (addr_low, st) := cpu_load8 st st.cpu.reg_pc
      let st := withPC st ((st.cpu.reg_pc + 1) % 65536)
      let st := tick st
      -- cycle 2: load high addr byte
      let (addr_high, st) := cpu_load8 st st.cpu.reg_pc
      let st := withPC st ((st.cpu.reg_pc + 1) % 65536)
      let st := tick st
      let base_addr := addr_high * 256 + addr_low
      -- `base_addr.wrapping_add(self.reg_y as u16)`
      let real_addr := (base_addr + st.cpu.reg_y) % 65536
      if ¬ is_read ∨ real_addr / 256 ≠ base_addr / 256 then
        let (_, st) := cpu_load8 st (base_addr / 256 * 256 + real_addr % 256)
        let st := tick st
        (real_addr, st)
      else
        (real_addr, st)
  | .Immediate | .Relative =>
      -- cycle 1: read immediate operand; no clock increment because the
      -- consuming instruction loads the value on its own
      let addr := st.cpu.reg_pc
      let st := withPC st ((st.cpu.reg_pc + 1) % 65536)
      (addr, st)
  | .Indirect =>
      -- cycle 1: load ptr low
      let (ptr_low, st) := cpu_load8 st st.cpu.reg_pc
      let st := withPC st ((st.cpu.reg_pc + 1) % 65536)
      let st := tick st
      -- cycle 2: load ptr high
      let (ptr_high, st) := cpu_load8 st st.cpu.reg_pc
      let st := withPC st ((st.cpu.reg_pc + 1) % 65536)
      let st := tick st
      -- cycle 3: load addr low
      let (addr_low, st) := cpu_load8 st (ptr_high * 256 + ptr_low)
      let st := tick st
      -- cycle 4: load addr high; if ptr_low is 0xFF, no page crossing is
      -- handled (`ptr_low.wrapping_add(1)` stays inside the page)
      let (addr_high, st) := cpu_load8 st (ptr_high * 256 + (ptr_low + 1) % 256)
      let st := tick st
      (addr_high * 256 + addr_low, st)
  | .IndexedIndirect =>
      -- cycle 1: load ptr
      let (ptr, st) := cpu_load8 st st.cpu.reg_pc
      let st := withPC st ((st.cpu.reg_pc + 1) % 65536)
      let st := tick st
      -- cycle 2: dummy read address, add X
      let (_, st) := cpu_load8 st ptr
      let ptr := (ptr + st.cpu.reg_x) % 256
      let st := tick st
      -- cycle 3: load addr low
      let (addr_low, st) := cpu_load8 st ptr
      let st := tick st
      -- cycle 4: load addr high; no page crossing is handled
      let (addr_high, st) := cpu_load8 st ((ptr + 1) % 256)
      let st := tick st
      (addr_high * 256 + addr_low, st)
  | .IndirectIndexed =>
      -- cycle 1: load ptr
      let (ptr, st) := cpu_load8 st st.cpu.reg_pc
      let st := withPC st ((st.cpu.reg_pc + 1) % 65536)
      let st := tick st
      -- cycle 2: load addr low
      let (addr_low, st) := cpu_load8 st ptr
      let st := tick st
      -- cycle 3: load addr high
      let (addr_high, st) := cpu_load8 st ((ptr + 1) % 256)
      let st := tick st
      let base_addr := addr_high * 256 + addr_low
      let real_addr := (base_addr + st.cpu.reg_y) % 65536
      -- write and read-modify-write instructions always do a useless read of
      -- the unfixed addr, read instructions only when a page is crossed
      if ¬ is_read ∨ real_addr / 256 ≠ base_addr / 256 then
        let (_, st) := cpu_load8 st (base_addr / 256 * 256 + real_addr % 256)
        let st := tick st
        (real_addr, st)
      else
        (real_addr, st)

/-- `Cpu::push`: write `val` to `0x0100 + S`, then decrement `S` (wrapping). -/
def push (st : St) (val : Nat) : St :=
  let addr := 0x0100 + st.cpu.reg_s % 256
  let st := cpu_store8 st addr val
  let st := tick st
  withS st ((st.cpu.reg_s + 255) % 256)

/-- `Cpu::pull`: increment `S` (wrapping), then read from `0x0100 + S`. -/
def pull (st : St) : Nat × St :=
  let st := withS st ((st.cpu.reg_s + 1) % 256)
  let (res, st) := cpu_load8 st (0x0100 + st.cpu.reg_s % 256)
  let st := tick st
  (res, st)

/-- `Cpu::op_adc`. -/
def op_adc (addr_mode : AddressingMode) (st : St) : St :=
  let (op_addr, st) := get_operand_addr addr_mode true st
  let (op, st) := cpu_load8 st op_addr
  let st := tick st
  let carry_in : Nat := if getFlag st .Carry then 1 else 0
  let res := ((op + st.cpu.reg_a % 256) % 65536 + carry_in) % 65536
  let st := setFlag st .Carry (res / 256 % 2 ≠ 0)
  let st := setFlag st .Zero (res % 256 = 0)
  let st := setFlag st .Negative (res / 128 % 2 ≠ 0)
  let overflow := (255 ^^^ (st.cpu.reg_a ^^^ op)) &&& (st.cpu.reg_a ^^^ res % 256) &&& 0x80
  let st := setFlag st .Overflow (overflow ≠ 0)
  withA st (res % 256)

/-- `Cpu::op_and`. -/
def op_and (addr_mode : AddressingMode) (st : St) : St :=
  let (op_addr, st) := get_operand_addr addr_mode true st
  let (op, st) := cpu_load8 st op_addr
  let st := tick st
  let res := st.cpu.reg_a &&& op
  let st := setFlag st .Zero (res = 0)
  let st := setFlag st .Negative (res / 128 % 2 ≠ 0)
  withA st res

/-- `Cpu::op_asl_a`. -/
def op_asl_a (_ : AddressingMode) (st : St) : St :=
  let (_, st) := get_operand_addr .Implicit false st
  let res := st.cpu.reg_a % 256 * 2
  let st := setFlag st .Carry (res / 256 % 2 ≠ 0)
  let st := setFlag st .Zero (res % 256 = 0)
  let st := setFlag st .Negative (res / 128 % 2 ≠ 0)
  withA st (res % 256)

/-- `Cpu::op_asl_m` (read-modify-write: read, dummy write back, write). -/
def op_asl_m (addr_mode : AddressingMode) (st : St) : St :=
  let (op_addr, st) := get_operand_addr addr_mode false st
  let (op, st) := cpu_load8 st op_addr
  let st := tick st
  let st := cpu_store8 st op_addr op
  let st := tick st
  let res := op * 2
  let st := setFlag st .Carry (res / 256 % 2 ≠ 0)
  let st := setFlag st .Zero (res % 256 = 0)
  let st := setFlag st .Negative (res / 128 % 2 ≠ 0)
  let st := cpu_store8 st op_addr (res % 256)
  tick st

/-- `Cpu::relative_branch`: taken-branch dummy read at PC, sign-extended
offset added to PC, extra dummy read and cycle on page cross. -/
def relative_branch (op : Nat) (st : St) : St :=
  -- on a taken branch, the next instruction is read and discarded
  let (_, st) := cpu_load8 st st.cpu.reg_pc
  let st := tick st
  -- sign extension: `offs |= 0xFF00` when bit 7 of the u8 offset is set
  let offs := op % 256
  let offs := if offs / 128 % 2 ≠ 0 then 0xFF00 + offs else offs
  let new_pc := (st.cpu.reg_pc + offs) % 65536
  if new_pc / 256 ≠ st.cpu.reg_pc / 256 then
    -- on page cross add another dummy read at the unfixed new pc
    let (_, st) := cpu_load8 st (st.cpu.reg_pc / 256 * 256 + new_pc % 256)
    let st := tick st
    withPC st new_pc
  else
    withPC st new_pc

/-- `Cpu::op_bcc`. -/
def op_bcc (_ : AddressingMode) (st : St) : St :=
  let (op_addr, st) := get_operand_addr .Relative false st
  let (op, st) := cpu_load8 st op_addr
  let st := tick st
  if ¬ getFlag st .Carry then relative_branch op st else st

/-- `Cpu::op_bcs`. -/
def op_bcs (_ : AddressingMode) (st : St) : St :=
  let (op_addr, st) := get_operand_addr .Relative false st
  let (op, st) := cpu_load8 st op_addr
  let st := tick st
  if getFlag st .Carry then relative_branch op st else st

/-- `Cpu::op_beq`. -/
def op_beq (_ : AddressingMode) (st : St) : St :=
  let (op_addr, st) := get_operand_addr .Relative false st
  let (op, st) := cpu_load8 st op_addr
  let st := tick st
  if getFlag st .Zero then relative_branch op st else st

/-- `Cpu::op_bit`. -/
def op_bit (addr_mode : AddressingMode) (st : St) : St :=
  let (op_addr, st) := get_operand_addr addr_mode true st
  let (op, st) := cpu_load8 st op_addr
  let st := tick st
  let res := st.cpu.reg_a &&& op
  let st := setFlag st .Zero (res = 0)
  let st := setFlag st .Overflow (op / 64 % 2 ≠ 0)
  setFlag st .Negative (op / 128 % 2 ≠ 0)

/-- `Cpu::op_bmi`. -/
def op_bmi (_ : AddressingMode) (st : St) : St :=
  let (op_addr, st) := get_operand_addr .Relative false st
  let (op, st) := cpu_load8 st op_addr
  let st := tick st
  if getFlag st .Negative then relative_branch op st else st

/-- `Cpu::op_bne`. -/
def op_bne (_ : AddressingMode) (st : St) : St :=
  let (op_addr, st) := get_operand_addr .Relative false st
  let (op, st) := cpu_load8 st op_addr
  let st := tick st
  if ¬ getFlag st .Zero then relative_branch op st else st

/-- `Cpu::op_bpl`. -/
def op_bpl (_ : AddressingMode) (st : St) : St :=
  let (op_addr, st) := get_operand_addr .Relative false st
  let (op, st) := cpu_load8 st op_addr
  let st := tick st
  if ¬ getFlag st .Negative then relative_branch op st else st

/-- `Cpu::op_brk`: pushes the high then low byte of the post-fetch PC (note:
not PC+1), then `P | 0x30`, sets I, loads PC from the vector at
`0xFFFE/0xFFFF`. -/
def op_brk (_ : AddressingMode) (st : St) : St :=
  let ret_addr_low := st.cpu.reg_pc % 256
  let ret_addr_high := st.cpu.reg_pc / 256 % 256
  let p := st.cpu.reg_p ||| 0x30
  let st := push st ret_addr_high
  let st := push st ret_addr_low
  let st := push st p
  let st := setFlag st .InterruptDisable True
  let (vect_low, st) := cpu_load8 st 0xFFFE
  let st := tick st
  let (vect_high, st) := cpu_load8 st 0xFFFF
  let st := tick st
  withPC st (vect_high * 256 + vect_low)

/-- `Cpu::op_bvc`. -/
def op_bvc (_ : AddressingMode) (st : St) : St :=
  let (op_addr, st) := get_operand_addr .Relative false st
  let (op, st) := cpu_load8 st op_addr
  let st := tick st
  if ¬ getFlag st .Overflow then relative_branch op st else st

/-- `Cpu::op_bvs`. -/
def op_bvs (_ : AddressingMode) (st : St) : St :=
  let (op_addr, st) := get_operand_addr .Relative false st
  let (op, st) := cpu_load8 st op_addr
  let st := tick st
  if getFlag st .Overflow then relative_branch op st else st

/-- `Cpu::op_clc`. -/
def op_clc (_ : AddressingMode) (st : St) : St :=
  let (_, st) := get_operand_addr .Implicit false st
  setFlag st .Carry False

/-- `Cpu::op_cld`. -/
def op_cld (_ : AddressingMode) (st : St) : St :=
  let (_, st) := get_operand_addr .Implicit false st
  setFlag st .Decimal False

/-- `Cpu::op_cli`. -/
def op_cli (_ : AddressingMode) (st : St) : St :=
  let (_, st) := get_operand_addr .Implicit false st
  setFlag st .InterruptDisable False

/-- `Cpu::op_clv`. -/
def op_clv (_ : AddressingMode) (st : St) : St :=
  let (_, st) := get_operand_addr .Implicit false st
  setFlag st .Overflow False

/-- `Cpu::op_cmp`. -/
def op_cmp (addr_mode : AddressingMode) (st : St) : St :=
  let (op_addr, st) := get_operand_addr addr_mode true st
  let (op, st) := cpu_load8 st op_addr
  let st := tick st
  let st := setFlag st .Carry (op ≤ st.cpu.reg_a)
  let st := setFlag st .Zero (st.cpu.reg_a = op)
  let tmp := (st.cpu.reg_a % 256 + (65536 - op)) % 65536
  setFlag st .Negative (tmp / 128 % 2 ≠ 0)

/-- `Cpu::op_cpx`. -/
def op_cpx (addr_mode : AddressingMode) (st : St) : St :=
  let (op_addr, st) := get_operand_addr addr_mode true st
  let (op, st) := cpu_load8 st op_addr
  let st := tick st
  let st := setFlag st .Carry (op ≤ st.cpu.reg_x)
  let st := setFlag st .Zero (st.cpu.reg_x = op)
  let tmp := (st.cpu.reg_x % 256 + (65536 - op)) % 65536
  setFlag st .Negative (tmp / 128 % 2 ≠ 0)

/-- `Cpu::op_cpy`. -/
def op_cpy (addr_mode : AddressingMode) (st : St) : St :=
  let (op_addr, st) := get_operand_addr addr_mode true st
  let (op, st) := cpu_load8 st op_addr
  let st := tick st
  let st := setFlag st .Carry (op ≤ st.cpu.reg_y)
  let st := setFlag st .Zero (st.cpu.reg_y = op)
  let tmp := (st.cpu.reg_y % 256 + (65536 - op)) % 65536
  setFlag st .Negative (tmp / 128 % 2 ≠ 0)

/-- `Cpu::op_dec`. -/
def op_dec (addr_mode : AddressingMode) (st : St) : St :=
  let (op_addr, st) := get_operand_addr addr_mode false st
  let (op, st) := cpu_load8 st op_addr
  let st := tick st
  let st := cpu_store8 st op_addr op
  let st := tick st
  let res := (op + 255) % 256
  let st := setFlag st .Zero (res = 0)
  let st := setFlag st .Negative (res / 128 % 2 ≠ 0)
  let st := cpu_store8 st op_addr res
  tick st

/-- `Cpu::op_dex`. -/
def op_dex (_ : AddressingMode) (st : St) : St :=
  let (_, st) := get_operand_addr .Implicit false st
  let st := withX st ((st.cpu.reg_x + 255) % 256)
  let st := setFlag st .Zero (st.cpu.reg_x = 0)
  setFlag st .Negative (st.cpu.reg_x / 128 % 2 ≠ 0)

/-- `Cpu::op_dey`. -/
def op_dey (_ : AddressingMode) (st : St) : St :=
  let (_, st) := get_operand_addr .Implicit false st
  let st := withY st ((st.cpu.reg_y + 255) % 256)
  let st := setFlag st .Zero (st.cpu.reg_y = 0)
  setFlag st .Negative (st.cpu.reg_y / 128 % 2 ≠ 0)

/-- `Cpu::op_eor`. -/
def op_eor (addr_mode : AddressingMode) (st : St) : St :=
  let (op_addr, st) := get_operand_addr addr_mode true st
  let (op, st) := cpu_load8 st op_addr
  let st := tick st
  let st := withA st (st.cpu.reg_a ^^^ op)
  let st := setFlag st .Zero (st.cpu.reg_a = 0)
  setFlag st .Negative (st.cpu.reg_a / 128 % 2 ≠ 0)

/-- `Cpu::op_inc`. -/
def op_inc (addr_mode : AddressingMode) (st : St) : St :=
  let (op_addr, st) := get_operand_addr addr_mode false st
  let (op, st) := cpu_load8 st op_addr
  let st := tick st
  let st := cpu_store8 st op_addr op
  let st := tick st
  let res := (op + 1) % 256
  let st := setFlag st .Zero (res = 0)
  let st := setFlag st .Negative (res / 128 % 2 ≠ 0)
  let st := cpu_store8 st op_addr res
  tick st

/-- `Cpu::op_inx`. -/
def op_inx (_ : AddressingMode) (st : St) : St :=
  let (_, st) := get_operand_addr .Implicit false st
  let st := withX st ((st.cpu.reg_x + 1) % 256)
  let st := setFlag st .Zero (st.cpu.reg_x = 0)
  setFlag st .Negative (st.cpu.reg_x / 128 % 2 ≠ 0)

/-- `Cpu::op_iny`. -/
def op_iny (_ : AddressingMode) (st : St) : St :=
  let (_, st) := get_operand_addr .Implicit false st
  let st := withY st ((st.cpu.reg_y + 1) % 256)
  let st := setFlag st .Zero (st.cpu.reg_y = 0)
  setFlag st .Negative (st.cpu.reg_y / 128 % 2 ≠ 0)

/-- `Cpu::op_jmp`. -/
def op_jmp (addr_mode : AddressingMode) (st : St) : St :=
  let (op_addr, st) := get_operand_addr addr_mode false st
  withPC st op_addr

/-- `Cpu::op_jsr` (hand-coded cycle layout, no `get_operand_addr`). -/
def op_jsr (_ : AddressingMode) (st : St) : St :=
  let (addr_low, st) := cpu_load8 st st.cpu.reg_pc
  let st := withPC st ((st.cpu.reg_pc + 1) % 65536)
  let st := tick st
  -- dummy read from stack
  let (_, st) := cpu_load8 st (0x0100 + st.cpu.reg_s % 256)
  let st := tick st
  let st := push st (st.cpu.reg_pc / 256 % 256)
  let st := push st (st.cpu.reg_pc % 256)
  let (addr_high, st) := cpu_load8 st st.cpu.reg_pc
  let st := tick st
  withPC st (addr_high * 256 + addr_low)

/-- `Cpu::op_lda`. -/
def op_lda (addr_mode : AddressingMode) (st : St) : St :=
  let (op_addr, st) := get_operand_addr addr_mode true st
  let (op, st) := cpu_load8 st op_addr
  let st := tick st
  let st := withA st op
  let st := setFlag st .Zero (st.cpu.reg_a = 0)
  setFlag st .Negative (st.cpu.reg_a / 128 % 2 ≠ 0)

/-- `Cpu::op_ldx`. -/
def op_ldx (addr_mode : AddressingMode) (st : St) : St :=
  let (op_addr, st) := get_operand_addr addr_mode true st
  let (op, st) := cpu_load8 st op_addr
  let st := tick st
  let st := withX st op
  let st := setFlag st .Zero (st.cpu.reg_x = 0)
  setFlag st .Negative (st.cpu.reg_x / 128 % 2 ≠ 0)

/-- `Cpu::op_ldy`. -/
def op_ldy (addr_mode : AddressingMode) (st : St) : St :=
  let (op_addr, st) := get_operand_addr addr_mode true st
  let (op, st) := cpu_load8 st op_addr
  let st := tick st
  let st := withY st op
  let st := setFlag st .Zero (st.cpu.reg_y = 0)
  setFlag st .Negative (st.cpu.reg_y / 128 % 2 ≠ 0)

/-- `Cpu::op_lsr_a`. -/
def op_lsr_a (_ : AddressingMode) (st : St) : St :=
  let (_, st) := get_operand_addr .Implicit false st
  let res := st.cpu.reg_a / 2
  let st := setFlag st .Carry (st.cpu.reg_a % 2 ≠ 0)
  let st := setFlag st .Zero (res % 256 = 0)
  let st := setFlag st .Negative (res / 128 % 2 ≠ 0)
  withA st res

/-- `Cpu::op_lsr_m`. -/
def op_lsr_m (addr_mode : AddressingMode) (st : St) : St :=
  let (op_addr, st) := get_operand_addr addr_mode false st
  let (op, st) := cpu_load8 st op_addr
  let st := tick st
  let st := cpu_store8 st op_addr op
  let st := tick st
  let res := op / 2
  let st := setFlag st .Carry (op % 2 ≠ 0)
  let st := setFlag st .Zero (res % 256 = 0)
  let st := setFlag st .Negative (res / 128 % 2 ≠ 0)
  let st := cpu_store8 st op_addr res
  tick st

/-- `Cpu::op_nop`. -/
def op_nop (_ : AddressingMode) (st : St) : St :=
  let (_, st) := get_operand_addr .Implicit false st
  st

/-- `Cpu::op_invalid`: executed for every unofficial opcode; behaves as
`op_nop`. -/
def op_invalid (addr_mode : AddressingMode) (st : St) : St :=
  op_nop addr_mode st

/-- `Cpu::op_ora`. -/
def op_ora (addr_mode : AddressingMode) (st : St) : St :=
  let (op_addr, st) := get_operand_addr addr_mode true st
  let (op, st) := cpu_load8 st op_addr
  let st := tick st
  let st := withA st (st.cpu.reg_a ||| op)
  let st := setFlag st .Zero (st.cpu.reg_a = 0)
  setFlag st .Negative (st.cpu.reg_a / 128 % 2 ≠ 0)

/-- `Cpu::op_pha`. -/
def op_pha (_ : AddressingMode) (st : St) : St :=
  let (_, st) := get_operand_addr .Implicit false st
  push st st.cpu.reg_a

/-- `Cpu::op_php`: pushes `P | 0x30`. -/
def op_php (_ : AddressingMode) (st : St) : St :=
  let (_, st) := get_operand_addr .Implicit false st
  push st (st.cpu.reg_p ||| 0x30)

/-- `Cpu::op_pla`. -/
def op_pla (_ : AddressingMode) (st : St) : St :=
  let (_, st) := get_operand_addr .Implicit false st
  let (_, st) := cpu_load8 st (0x0100 + st.cpu.reg_s % 256)
  let st := tick st
  let (val, st) := pull st
  let st := withA st val
  let st := setFlag st .Zero (st.cpu.reg_a = 0)
  setFlag st .Negative (st.cpu.reg_a / 128 % 2 ≠ 0)

/-- `Cpu::op_plp`: pulls into `P` with mask `0xCF` (bits B and U dropped). -/
def op_plp (_ : AddressingMode) (st : St) : St :=
  let (_, st) := get_operand_addr .Implicit false st
  let (_, st) := cpu_load8 st (0x0100 + st.cpu.reg_s % 256)
  let st := tick st
  let (val, st) := pull st
  withP st (val &&& 0xCF)

/-- `Cpu::op_rol_a`. -/
def op_rol_a (_ : AddressingMode) (st : St) : St :=
  let (_, st) := get_operand_addr .Implicit false st
  let res := st.cpu.reg_a % 256 * 2
  let res := if getFlag st .Carry then res + 1 else res
  let st := setFlag st .Carry (res / 256 % 2 ≠ 0)
  let st := withA st (res % 256)
  let st := setFlag st .Zero (st.cpu.reg_a = 0)
  setFlag st .Negative (st.cpu.reg_a / 128 % 2 ≠ 0)

/-- `Cpu::op_rol_m`. -/
def op_rol_m (addr_mode : AddressingMode) (st : St) : St :=
  let (op_addr, st) := get_operand_addr addr_mode false st
  let (op, st) := cpu_load8 st op_addr
  let st := tick st
  let st := cpu_store8 st op_addr op
  let st := tick st
  let res := op * 2
  let res := if getFlag st .Carry then res + 1 else res
  let st := setFlag st .Carry (res / 256 % 2 ≠ 0)
  let res := res % 256
  let st := setFlag st .Zero (res = 0)
  let st := setFlag st .Negative (res / 128 % 2 ≠ 0)
  let st := cpu_store8 st op_addr res
  tick st

/-- `Cpu::op_ror_a`. -/
def op_ror_a (_ : AddressingMode) (st : St) : St :=
  let (_, st) := get_operand_addr .Implicit false st
  let res := st.cpu.reg_a / 2
  let res := if getFlag st .Carry then res + 128 else res
  let st := setFlag st .Carry (st.cpu.reg_a % 2 ≠ 0)
  let st := withA st (res % 256)
  let st := setFlag st .Zero (st.cpu.reg_a = 0)
  setFlag st .Negative (st.cpu.reg_a / 128 % 2 ≠ 0)

/-- `Cpu::op_ror_m`. -/
def op_ror_m (addr_mode : AddressingMode) (st : St) : St :=
  let (op_addr, st) := get_operand_addr addr_mode false st
  let (op, st) := cpu_load8 st op_addr
  let st := tick st
  let st := cpu_store8 st op_addr op
  let st := tick st
  let res := op / 2
  let res := if getFlag st .Carry then res + 128 else res
  let st := setFlag st .Carry (op % 2 ≠ 0)
  let res := res % 256
  let st := setFlag st .Zero (res = 0)
  let st := setFlag st .Negative (res / 128 % 2 ≠ 0)
  let st := cpu_store8 st op_addr res
  tick st

/-- `Cpu::op_rti`: pulls `P` (masked `0xCF`), then PC low, then PC high. -/
def op_rti (_ : AddressingMode) (st : St) : St :=
  let (_, st) := get_operand_addr .Implicit false st
  let (_, st) := cpu_load8 st (0x0100 + st.cpu.reg_s % 256)
  let st := tick st
  let (p, st) := pull st
  let (ret_addr_low, st) := pull st
  let (ret_addr_high, st) := pull st
  let st := withP st (p &&& 0xCF)
  withPC st (ret_addr_high * 256 + ret_addr_low)

/-- `Cpu::op_rts`. -/
def op_rts (_ : AddressingMode) (st : St) : St :=
  let (_, st) := get_operand_addr .Implicit false st
  let (_, st) := cpu_load8 st (0x0100 + st.cpu.reg_s % 256)
  let st := tick st
  let (ret_addr_low, st) := pull st
  let (ret_addr_high, st) := pull st
  let ret_addr := ret_addr_high * 256 + ret_addr_low
  let st := withPC st ((ret_addr + 1) % 65536)
  let (_, st) := cpu_load8 st ret_addr
  tick st

/-- `Cpu::op_sbc`: ADC with the operand byte complemented. -/
def op_sbc (addr_mode : AddressingMode) (st : St) : St :=
  let (op_addr, st) := get_operand_addr addr_mode true st
  let (m, st) := cpu_load8 st op_addr
  let op := 255 ^^^ m
  let st := tick st
  let carry_in : Nat := if getFlag st .Carry then 1 else 0
  let res := ((op + st.cpu.reg_a % 256) % 65536 + carry_in) % 65536
  let st := setFlag st .Carry (res / 256 % 2 ≠ 0)
  let st := setFlag st .Zero (res % 256 = 0)
  let st := setFlag st .Negative (res / 128 % 2 ≠ 0)
  let overflow := (255 ^^^ (st.cpu.reg_a ^^^ op)) &&& (st.cpu.reg_a ^^^ res % 256) &&& 0x80
  let st := setFlag st .Overflow (overflow ≠ 0)
  withA st (res % 256)

/-- `Cpu::op_sec`. -/
def op_sec (_ : AddressingMode) (st : St) : St :=
  let (_, st) := get_operand_addr .Implicit false st
  setFlag st .Carry True

/-- `Cpu::op_sed`. -/
def op_sed (_ : AddressingMode) (st : St) : St :=
  let (_, st) := get_operand_addr .Implicit false st
  setFlag st .Decimal True

/-- `Cpu::op_sei`. -/
def op_sei (_ : AddressingMode) (st : St) : St :=
  let (_, st) := get_operand_addr .Implicit false st
  setFlag st .InterruptDisable True

/-- `Cpu::op_sta`. -/
def op_sta (addr_mode : AddressingMode) (st : St) : St :=
  let (op_addr, st) := get_operand_addr addr_mode false st
  let st := cpu_store8 st op_addr st.cpu.reg_a
  tick st

/-- `Cpu::op_stx`. -/
def op_stx (addr_mode : AddressingMode) (st : St) : St :=
  let (op_addr, st) := get_operand_addr addr_mode false st
  let st := cpu_store8 st op_addr st.cpu.reg_x
  tick st

/-- `Cpu::op_sty`. -/
def op_sty (addr_mode : AddressingMode) (st : St) : St :=
  let (op_addr, st) := get_operand_addr addr_mode false st
  let st := cpu_store8 st op_addr st.cpu.reg_y
  tick st

/-- `Cpu::op_tax`. -/
def op_tax (_ : AddressingMode) (st : St) : St :=
  let (_, st) := get_operand_addr .Implicit false st
  let st := withX st st.cpu.reg_a
  let st := setFlag st .Zero (st.cpu.reg_x = 0)
  setFlag st .Negative (st.cpu.reg_x / 128 % 2 ≠ 0)

/-- `Cpu::op_tay`. -/
def op_tay (_ : AddressingMode) (st : St) : St :=
  let (_, st) := get_operand_addr .Implicit false st
  let st := withY st st.cpu.reg_a
  let st := setFlag st .Zero (st.cpu.reg_y = 0)
  setFlag st .Negative (st.cpu.reg_y / 128 % 2 ≠ 0)

/-- `Cpu::op_tsx`. -/
def op_tsx (_ : AddressingMode) (st : St) : St :=
  let (_, st) := get_operand_addr .Implicit false st
  let st := withX st st.cpu.reg_s
  let st := setFlag st .Zero (st.cpu.reg_x = 0)
  setFlag st .Negative (st.cpu.reg_x / 128 % 2 ≠ 0)

/-- `Cpu::op_txa`. -/
def op_txa (_ : AddressingMode) (st : St) : St :=
  let (_, st) := get_operand_addr .Implicit false st
  let st := withA st st.cpu.reg_x
  let st := setFlag st .Zero (st.cpu.reg_a = 0)
  setFlag st .Negative (st.cpu.reg_a / 128 % 2 ≠ 0)

/-- `Cpu::op_txs` (no flag updates). -/
def op_txs (_ : AddressingMode) (st : St) : St :=
  let (_, st) := get_operand_addr .Implicit false st
  withS st st.cpu.reg_x

/-- `Cpu::op_tya`. -/
def op_tya (_ : AddressingMode) (st : St) : St :=
  let (_, st) := get_operand_addr .Implicit false st
  let st := withA st st.cpu.reg_y
  let st := setFlag st .Zero (st.cpu.reg_a = 0)
  setFlag st .Negative (st.cpu.reg_a / 128 % 2 ≠ 0)

/-- Tag for the per-instruction handler functions of `cpu.rs` (the `func`
field of `CpuOp`, rendered as a tagged variant dispatched by `execOp`). -/
inductive OpKind where
  | adc
  | and
  | asl_a
  | asl_m
  | bcc
  | bcs
  | beq
  | bit
  | bmi
  | bne
  | bpl
  | brk
  | bvc
  | bvs
  | clc
  | cld
  | cli
  | clv
  | cmp
  | cpx
  | cpy
  | dec
  | dex
  | dey
  | eor
  | inc
  | inx
  | iny
  | jmp
  | jsr
  | lda
  | ldx
  | ldy
  | lsr_a
  | lsr_m
  | nop
  | ora
  | pha
  | php
  | pla
  | plp
  | rol_a
  | rol_m
  | ror_a
  | ror_m
  | rti
  | rts
  | sbc
  | sec
  | sed
  | sei
  | sta
  | stx
  | sty
  | tax
  | tay
  | tsx
  | txa
  | txs
  | tya
  | invalid
deriving DecidableEq

/-- The `CpuOp` structure of `cpu_ops.rs`: mnemonic, opcode byte, addressing
mode and handler (as an `OpKind` tag). -/
structure CpuOp where
  name : String
  opcode : Nat
  addr_mode : AddressingMode
  kind : OpKind
deriving DecidableEq

/-- The 151-entry table `CPU_OPS` of `cpu_ops.rs` (all official opcodes). -/
def CPU_OPS : List CpuOp := [
  CpuOp.mk "ADC" 0x69 AddressingMode.Immediate OpKind.adc,
  CpuOp.mk "ADC" 0x65 AddressingMode.ZeroPage OpKind.adc,
  CpuOp.mk "ADC" 0x75 AddressingMode.ZeroPageX OpKind.adc,
  CpuOp.mk "ADC" 0x6D AddressingMode.Absolute OpKind.adc,
  CpuOp.mk "ADC" 0x7D AddressingMode.AbsoluteX OpKind.adc,
  CpuOp.mk "ADC" 0x79 AddressingMode.AbsoluteY OpKind.adc,
  CpuOp.mk "ADC" 0x61 AddressingMode.IndexedIndirect OpKind.adc,
  CpuOp.mk "ADC" 0x71 AddressingMode.IndirectIndexed OpKind.adc,
  CpuOp.mk "AND" 0x29 AddressingMode.Immediate OpKind.and,
  CpuOp.mk "AND" 0x25 AddressingMode.ZeroPage OpKind.and,
  CpuOp.mk "AND" 0x35 AddressingMode.ZeroPageX OpKind.and,
  CpuOp.mk "AND" 0x2D AddressingMode.Absolute OpKind.and,
  CpuOp.mk "AND" 0x3D AddressingMode.AbsoluteX OpKind.and,
  CpuOp.mk "AND" 0x39 AddressingMode.AbsoluteY OpKind.and,
  CpuOp.mk "AND" 0x21 AddressingMode.IndexedIndirect OpKind.and,
  CpuOp.mk "AND" 0x31 AddressingMode.IndirectIndexed OpKind.and,
  CpuOp.mk "ASL" 0x0A AddressingMode.Implicit OpKind.asl_a,
  CpuOp.mk "ASL" 0x06 AddressingMode.ZeroPage OpKind.asl_m,
  CpuOp.mk "ASL" 0x16 AddressingMode.ZeroPageX OpKind.asl_m,
  CpuOp.mk "ASL" 0x0E AddressingMode.Absolute OpKind.asl_m,
  CpuOp.mk "ASL" 0x1E AddressingMode.AbsoluteX OpKind.asl_m,
  CpuOp.mk "BCC" 0x90 AddressingMode.Relative OpKind.bcc,
  CpuOp.mk "BCS" 0xB0 AddressingMode.Relative OpKind.bcs,
  CpuOp.mk "BEQ" 0xF0 AddressingMode.Relative OpKind.beq,
  CpuOp.mk "BIT" 0x24 AddressingMode.ZeroPage OpKind.bit,
  CpuOp.mk "BIT" 0x2C AddressingMode.Absolute OpKind.bit,
  CpuOp.mk "BMI" 0x30 AddressingMode.Relative OpKind.bmi,
  CpuOp.mk "BNE" 0xD0 AddressingMode.Relative OpKind.bne,
  CpuOp.mk "BPL" 0x10 AddressingMode.Relative OpKind.bpl,
  CpuOp.mk "BRK" 0x00 AddressingMode.Implicit OpKind.brk,
  CpuOp.mk "BVC" 0x50 AddressingMode.Relative OpKind.bvc,
  CpuOp.mk "BVS" 0x70 AddressingMode.Relative OpKind.bvs,
  CpuOp.mk "CLC" 0x18 AddressingMode.Implicit OpKind.clc,
  CpuOp.mk "CLD" 0xD8 AddressingMode.Implicit OpKind.cld,
  CpuOp.mk "CLI" 0x58 AddressingMode.Implicit OpKind.cli,
  CpuOp.mk "CLV" 0xB8 AddressingMode.Implicit OpKind.clv,
  CpuOp.mk "CMP" 0xC9 AddressingMode.Immediate OpKind.cmp,
  CpuOp.mk "CMP" 0xC5 AddressingMode.ZeroPage OpKind.cmp,
  CpuOp.mk "CMP" 0xD5 AddressingMode.ZeroPageX OpKind.cmp,
  CpuOp.mk "CMP" 0xCD AddressingMode.Absolute OpKind.cmp,
  CpuOp.mk "CMP" 0xDD AddressingMode.AbsoluteX OpKind.cmp,
  CpuOp.mk "CMP" 0xD9 AddressingMode.AbsoluteY OpKind.cmp,
  CpuOp.mk "CMP" 0xC1 AddressingMode.IndexedIndirect OpKind.cmp,
  CpuOp.mk "CMP" 0xD1 AddressingMode.IndirectIndexed OpKind.cmp,
  CpuOp.mk "CPX" 0xE0 AddressingMode.Immediate OpKind.cpx,
  CpuOp.mk "CPX" 0xE4 AddressingMode.ZeroPage OpKind.cpx,
  CpuOp.mk "CPX" 0xEC AddressingMode.Absolute OpKind.cpx,
  CpuOp.mk "CPY" 0xC0 AddressingMode.Immediate OpKind.cpy,
  CpuOp.mk "CPY" 0xC4 AddressingMode.ZeroPage OpKind.cpy,
  CpuOp.mk "CPY" 0xCC AddressingMode.Absolute OpKind.cpy,
  CpuOp.mk "DEC" 0xC6 AddressingMode.ZeroPage OpKind.dec,
  CpuOp.mk "DEC" 0xD6 AddressingMode.ZeroPageX OpKind.dec,
  CpuOp.mk "DEC" 0xCE AddressingMode.Absolute OpKind.dec,
  CpuOp.mk "DEC" 0xDE AddressingMode.AbsoluteX OpKind.dec,
  CpuOp.mk "DEX" 0xCA AddressingMode.Implicit OpKind.dex,
  CpuOp.mk "DEY" 0x88 AddressingMode.Implicit OpKind.dey,
  CpuOp.mk "EOR" 0x49 AddressingMode.Immediate OpKind.eor,
  CpuOp.mk "EOR" 0x45 AddressingMode.ZeroPage OpKind.eor,
  CpuOp.mk "EOR" 0x55 AddressingMode.ZeroPageX OpKind.eor,
  CpuOp.mk "EOR" 0x4D AddressingMode.Absolute OpKind.eor,
  CpuOp.mk "EOR" 0x5D AddressingMode.AbsoluteX OpKind.eor,
  CpuOp.mk "EOR" 0x59 AddressingMode.AbsoluteY OpKind.eor,
  CpuOp.mk "EOR" 0x41 AddressingMode.IndexedIndirect OpKind.eor,
  CpuOp.mk "EOR" 0x51 AddressingMode.IndirectIndexed OpKind.eor,
  CpuOp.mk "INC" 0xE6 AddressingMode.ZeroPage OpKind.inc,
  CpuOp.mk "INC" 0xF6 AddressingMode.ZeroPageX OpKind.inc,
  CpuOp.mk "INC" 0xEE AddressingMode.Absolute OpKind.inc,
  CpuOp.mk "INC" 0xFE AddressingMode.AbsoluteX OpKind.inc,
  CpuOp.mk "INX" 0xE8 AddressingMode.Implicit OpKind.inx,
  CpuOp.mk "INY" 0xC8 AddressingMode.Implicit OpKind.iny,
  CpuOp.mk "JMP" 0x4C AddressingMode.Absolute OpKind.jmp,
  CpuOp.mk "JMP" 0x6C AddressingMode.Indirect OpKind.jmp,
  CpuOp.mk "JSR" 0x20 AddressingMode.Absolute OpKind.jsr,
  CpuOp.mk "LDA" 0xA9 AddressingMode.Immediate OpKind.lda,
  CpuOp.mk "LDA" 0xA5 AddressingMode.ZeroPage OpKind.lda,
  CpuOp.mk "LDA" 0xB5 AddressingMode.ZeroPageX OpKind.lda,
  CpuOp.mk "LDA" 0xAD AddressingMode.Absolute OpKind.lda,
  CpuOp.mk "LDA" 0xBD AddressingMode.AbsoluteX OpKind.lda,
  CpuOp.mk "LDA" 0xB9 AddressingMode.AbsoluteY OpKind.lda,
  CpuOp.mk "LDA" 0xA1 AddressingMode.IndexedIndirect OpKind.lda,
  CpuOp.mk "LDA" 0xB1 AddressingMode.IndirectIndexed OpKind.lda,
  CpuOp.mk "LDX" 0xA2 AddressingMode.Immediate OpKind.ldx,
  CpuOp.mk "LDX" 0xA6 AddressingMode.ZeroPage OpKind.ldx,
  CpuOp.mk "LDX" 0xB6 AddressingMode.ZeroPageY OpKind.ldx,
  CpuOp.mk "LDX" 0xAE AddressingMode.Absolute OpKind.ldx,
  CpuOp.mk "LDX" 0xBE AddressingMode.AbsoluteY OpKind.ldx,
  CpuOp.mk "LDY" 0xA0 AddressingMode.Immediate OpKind.ldy,
  CpuOp.mk "LDY" 0xA4 AddressingMode.ZeroPage OpKind.ldy,
  CpuOp.mk "LDY" 0xB4 AddressingMode.ZeroPageX OpKind.ldy,
  CpuOp.mk "LDY" 0xAC AddressingMode.Absolute OpKind.ldy,
  CpuOp.mk "LDY" 0xBC AddressingMode.AbsoluteX OpKind.ldy,
  CpuOp.mk "LSR" 0x4A AddressingMode.Implicit OpKind.lsr_a,
  CpuOp.mk "LSR" 0x46 AddressingMode.ZeroPage OpKind.lsr_m,
  CpuOp.mk "LSR" 0x56 AddressingMode.ZeroPageX OpKind.lsr_m,
  CpuOp.mk "LSR" 0x4E AddressingMode.Absolute OpKind.lsr_m,
  CpuOp.mk "LSR" 0x5E AddressingMode.AbsoluteX OpKind.lsr_m,
  CpuOp.mk "NOP" 0xEA AddressingMode.Implicit OpKind.nop,
  CpuOp.mk "ORA" 0x09 AddressingMode.Immediate OpKind.ora,
  CpuOp.mk "ORA" 0x05 AddressingMode.ZeroPage OpKind.ora,
  CpuOp.mk "ORA" 0x15 AddressingMode.ZeroPageX OpKind.ora,
  CpuOp.mk "ORA" 0x0D AddressingMode.Absolute OpKind.ora,
  CpuOp.mk "ORA" 0x1D AddressingMode.AbsoluteX OpKind.ora,
  CpuOp.mk "ORA" 0x19 AddressingMode.AbsoluteY OpKind.ora,
  CpuOp.mk "ORA" 0x01 AddressingMode.IndexedIndirect OpKind.ora,
  CpuOp.mk "ORA" 0x11 AddressingMode.IndirectIndexed OpKind.ora,
  CpuOp.mk "PHA" 0x48 AddressingMode.Implicit OpKind.pha,
  CpuOp.mk "PHP" 0x08 AddressingMode.Implicit OpKind.php,
  CpuOp.mk "PLA" 0x68 AddressingMode.Implicit OpKind.pla,
  CpuOp.mk "PLP" 0x28 AddressingMode.Implicit OpKind.plp,
  CpuOp.mk "ROL" 0x2A AddressingMode.Implicit OpKind.rol_a,
  CpuOp.mk "ROL" 0x26 AddressingMode.ZeroPage OpKind.rol_m,
  CpuOp.mk "ROL" 0x36 AddressingMode.ZeroPageX OpKind.rol_m,
  CpuOp.mk "ROL" 0x2E AddressingMode.Absolute OpKind.rol_m,
  CpuOp.mk "ROL" 0x3E AddressingMode.AbsoluteX OpKind.rol_m,
  CpuOp.mk "ROR" 0x6A AddressingMode.Implicit OpKind.ror_a,
  CpuOp.mk "ROR" 0x66 AddressingMode.ZeroPage OpKind.ror_m,
  CpuOp.mk "ROR" 0x76 AddressingMode.ZeroPageX OpKind.ror_m,
  CpuOp.mk "ROR" 0x6E AddressingMode.Absolute OpKind.ror_m,
  CpuOp.mk "ROR" 0x7E AddressingMode.AbsoluteX OpKind.ror_m,
  CpuOp.mk "RTI" 0x40 AddressingMode.Implicit OpKind.rti,
  CpuOp.mk "RTS" 0x60 AddressingMode.Implicit OpKind.rts,
  CpuOp.mk "SBC" 0xE9 AddressingMode.Immediate OpKind.sbc,
  CpuOp.mk "SBC" 0xE5 AddressingMode.ZeroPage OpKind.sbc,
  CpuOp.mk "SBC" 0xF5 AddressingMode.ZeroPageX OpKind.sbc,
  CpuOp.mk "SBC" 0xED AddressingMode.Absolute OpKind.sbc,
  CpuOp.mk "SBC" 0xFD AddressingMode.AbsoluteX OpKind.sbc,
  CpuOp.mk "SBC" 0xF9 AddressingMode.AbsoluteY OpKind.sbc,
  CpuOp.mk "SBC" 0xE1 AddressingMode.IndexedIndirect OpKind.sbc,
  CpuOp.mk "SBC" 0xF1 AddressingMode.IndirectIndexed OpKind.sbc,
  CpuOp.mk "SEC" 0x38 AddressingMode.Implicit OpKind.sec,
  CpuOp.mk "SED" 0xF8 AddressingMode.Implicit OpKind.sed,
  CpuOp.mk "SEI" 0x78 AddressingMode.Implicit OpKind.sei,
  CpuOp.mk "STA" 0x85 AddressingMode.ZeroPage OpKind.sta,
  CpuOp.mk "STA" 0x95 AddressingMode.ZeroPageX OpKind.sta,
  CpuOp.mk "STA" 0x8D AddressingMode.Absolute OpKind.sta,
  CpuOp.mk "STA" 0x9D AddressingMode.AbsoluteX OpKind.sta,
  CpuOp.mk "STA" 0x99 AddressingMode.AbsoluteY OpKind.sta,
  CpuOp.mk "STA" 0x81 AddressingMode.IndexedIndirect OpKind.sta,
  CpuOp.mk "STA" 0x91 AddressingMode.IndirectIndexed OpKind.sta,
  CpuOp.mk "STX" 0x86 AddressingMode.ZeroPage OpKind.stx,
  CpuOp.mk "STX" 0x96 AddressingMode.ZeroPageY OpKind.stx,
  CpuOp.mk "STX" 0x8E AddressingMode.Absolute OpKind.stx,
  CpuOp.mk "STY" 0x84 AddressingMode.ZeroPage OpKind.sty,
  CpuOp.mk "STY" 0x94 AddressingMode.ZeroPageX OpKind.sty,
  CpuOp.mk "STY" 0x8C AddressingMode.Absolute OpKind.sty,
  CpuOp.mk "TAX" 0xAA AddressingMode.Implicit OpKind.tax,
  CpuOp.mk "TAY" 0xA8 AddressingMode.Implicit OpKind.tay,
  CpuOp.mk "TSX" 0xBA AddressingMode.Implicit OpKind.tsx,
  CpuOp.mk "TXA" 0x8A AddressingMode.Implicit OpKind.txa,
  CpuOp.mk "TXS" 0x9A AddressingMode.Implicit OpKind.txs,
  CpuOp.mk "TYA" 0x98 AddressingMode.Implicit OpKind.tya]

/-- The default entry of the dispatch array built by `Cpu::new`:
mnemonic `???`, `Implicit` mode, `op_invalid` handler. -/
def invalidOp : CpuOp := ⟨"???", 0x00, .Implicit, .invalid⟩

/-- The 256-entry dispatch array of `Cpu::new`, as a lookup: the `CPU_OPS`
entry for the opcode byte, or `invalidOp` when the opcode is unofficial
(opcode bytes in `CPU_OPS` are pairwise distinct). -/
def opmap (opcode : Nat) : CpuOp :=
  (CPU_OPS.find? (fun op => op.opcode == opcode)).getD invalidOp

/-- Dispatch of `(op.func)(self, op.addr_mode, memory)`. -/
def execOp : OpKind → AddressingMode → St → St
  | .adc, m, st => op_adc m st
  | .and, m, st => op_and m st
  | .asl_a, m, st => op_asl_a m st
  | .asl_m, m, st => op_asl_m m st
  | .bcc, m, st => op_bcc m st
  | .bcs, m, st => op_bcs m st
  | .beq, m, st => op_beq m st
  | .bit, m, st => op_bit m st
  | .bmi, m, st => op_bmi m st
  | .bne, m, st => op_bne m st
  | .bpl, m, st => op_bpl m st
  | .brk, m, st => op_brk m st
  | .bvc, m, st => op_bvc m st
  | .bvs, m, st => op_bvs m st
  | .clc, m, st => op_clc m st
  | .cld, m, st => op_cld m st
  | .cli, m, st => op_cli m st
  | .clv, m, st => op_clv m st
  | .cmp, m, st => op_cmp m st
  | .cpx, m, st => op_cpx m st
  | .cpy, m, st => op_cpy m st
  | .dec, m, st => op_dec m st
  | .dex, m, st => op_dex m st
  | .dey, m, st => op_dey m st
  | .eor, m, st => op_eor m st
  | .inc, m, st => op_inc m st
  | .inx, m, st => op_inx m st
  | .iny, m, st => op_iny m st
  | .jmp, m, st => op_jmp m st
  | .jsr, m, st => op_jsr m st
  | .lda, m, st => op_lda m st
  | .ldx, m, st => op_ldx m st
  | .ldy, m, st => op_ldy m st
  | .lsr_a, m, st => op_lsr_a m st
  | .lsr_m, m, st => op_lsr_m m st
  | .nop, m, st => op_nop m st
  | .ora, m, st => op_ora m st
  | .pha, m, st => op_pha m st
  | .php, m, st => op_php m st
  | .pla, m, st => op_pla m st
  | .plp, m, st => op_plp m st
  | .rol_a, m, st => op_rol_a m st
  | .rol_m, m, st => op_rol_m m st
  | .ror_a, m, st => op_ror_a m st
  | .ror_m, m, st => op_ror_m m st
  | .rti, m, st => op_rti m st
  | .rts, m, st => op_rts m st
  | .sbc, m, st => op_sbc m st
  | .sec, m, st => op_sec m st
  | .sed, m, st => op_sed m st
  | .sei, m, st => op_sei m st
  | .sta, m, st => op_sta m st
  | .stx, m, st => op_stx m st
  | .sty, m, st => op_sty m st
  | .tax, m, st => op_tax m st
  | .tay, m, st => op_tay m st
  | .tsx, m, st => op_tsx m st
  | .txa, m, st => op_txa m st
  | .txs, m, st => op_txs m st
  | .tya, m, st => op_tya m st
  | .invalid, m, st => op_invalid m st

/-- `Cpu::execute_single_instruction`: fetch the opcode, advance PC (u16
wrap; see `execute_single_instruction_checked` for the overflow-checked
semantics of `self.reg_pc += 1`), charge the fetch cycle, dispatch.  The
`println!` debug trace line has no bus or register effect and is not
modelled. -/
def execute_single_instruction (st : St) : St :=
  -- cycle 0: load opcode, increment PC
  let (opcode, st) := cpu_load8 st st.cpu.reg_pc
  let op := opmap opcode
  let st := withPC st ((st.cpu.reg_pc + 1) % 65536)
  let st := tick st
  execOp op.kind op.addr_mode st

/-- `Cpu::reset`: `master_clock = 7 * CPU_CLOCK_DIV` (an assignment, not an
increment), `P = I`, `A = X = Y = 0`, `S = 0xFD`, PC from the little-endian
vector at `0xFFFC/0xFFFD`. -/
def reset (st : St) : St :=
  let st := withClock st (7 * CPU_CLOCK_DIV)
  let st := withP st Flags.InterruptDisable.val
  let st := withA st 0
  let st := withX st 0
  let st := withY st 0
  let st := withS st 0xFD
  let (pc_low, st) := cpu_load8 st 0xFFFC
  let (pc_high, st) := cpu_load8 st 0xFFFD
  withPC st (pc_high * 256 + pc_low)

/-- `Cpu::new`: all registers and the clock start at 0. -/
def Cpu.new : Cpu := ⟨0, 0, 0, 0, 0, 0, 0⟩

/-- CPU states reachable from construction by any sequence of resets and
executed instructions, paired with an arbitrary initial bus. -/
inductive Reachable : St → Prop where
  | init (mem : Nat → Nat) : Reachable ⟨Cpu.new, mem, []⟩
  | viaReset {st : St} : Reachable st → Reachable (reset st)
  | viaStep {st : St} : Reachable st → Reachable (execute_single_instruction st)

/-- Debug-profile (overflow-checked) semantics of the `AbsoluteX` arm of
`Cpu::get_operand_addr`: the source computes
`let real_addr = base_addr + self.reg_x as u16;` with the unchecked `+`
operator (unlike the `AbsoluteY` arm, which uses `wrapping_add`), so with
overflow checks enabled the addition aborts when `base + X` exceeds
`0xFFFF`; `none` models that abort. -/
def get_operand_addr_absolute_x_checked (is_read : Bool) (st : St) :
    Option (Nat × St) :=
  let (addr_low, st) := cpu_load8 st st.cpu.reg_pc
  let st := withPC st ((st.cpu.reg_pc + 1) % 65536)
  let st := tick st
  let (addr_high, st) := cpu_load8 st st.cpu.reg_pc
  let st := withPC st ((st.cpu.reg_pc + 1) % 65536)
  let st := tick st
  let base_addr := addr_high * 256 + addr_low
  if base_addr + st.cpu.reg_x % 256 < 65536 then
    let real_addr := base_addr + st.cpu.reg_x % 256
    if ¬ is_read ∨ real_addr / 256 ≠ base_addr / 256 then
      let (_, st) := cpu_load8 st (base_addr / 256 * 256 + real_addr % 256)
      let st := tick st
      some (real_addr, st)
    else
      some (real_addr, st)
  else
    none

/-- Debug-profile (overflow-checked) semantics of `self.reg_pc += 1` in
`Cpu::execute_single_instruction`: the source uses the unchecked `+=`
(every other PC advance in the file uses `wrapping_add`), so with overflow
checks enabled the fetch aborts when `PC = 0xFFFF`; `none` models that
abort.  The dispatched handler itself is the wrapping model. -/
def execute_single_instruction_checked (st : St) : Option St :=
  let (opcode, st) := cpu_load8 st st.cpu.reg_pc
  let op := opmap opcode
  if st.cpu.reg_pc + 1 < 65536 then
    let st := withPC st (st.cpu.reg_pc + 1)
    let st := tick st
    some (execOp op.kind op.addr_mode st)
  else
    none

/-! ### Projection lemmas for the state primitives -/

@[simp] theorem cpu_load8_reg_a (st : St) (a : Nat) : (cpu_load8 st a).2.cpu.reg_a = st.cpu.reg_a := by
  simp [cpu_load8]

@[simp] theorem cpu_load8_reg_x (st : St) (a : Nat) : (cpu_load8 st a).2.cpu.reg_x = st.cpu.reg_x := by
  simp [cpu_load8]

@[simp] theorem cpu_load8_reg_y (st : St) (a : Nat) : (cpu_load8 st a).2.cpu.reg_y = st.cpu.reg_y := by
  simp [cpu_load8]

@[simp] theorem cpu_load8_reg_pc (st : St) (a : Nat) : (cpu_load8 st a).2.cpu.reg_pc = st.cpu.reg_pc := by
  simp [cpu_load8]

@[simp] theorem cpu_load8_reg_s (st : St) (a : Nat) : (cpu_load8 st a).2.cpu.reg_s = st.cpu.reg_s := by
  simp [cpu_load8]

@[simp] theorem cpu_load8_reg_p (st : St) (a : Nat) : (cpu_load8 st a).2.cpu.reg_p = st.cpu.reg_p := by
  simp [cpu_load8]

@[simp] theorem cpu_load8_master_clock (st : St) (a : Nat) : (cpu_load8 st a).2.cpu.master_clock = st.cpu.master_clock := by
  simp [cpu_load8]

@[simp] theorem cpu_load8_mem (st : St) (a : Nat) : (cpu_load8 st a).2.mem = st.mem := by
  simp [cpu_load8]

@[simp] theorem cpu_load8_trace (st : St) (a : Nat) : (cpu_load8 st a).2.trace = st.trace ++ [BusEv.load (a % 65536)] := by
  simp [cpu_load8]

@[simp] theorem cpu_store8_reg_a (st : St) (a v : Nat) : (cpu_store8 st a v).cpu.reg_a = st.cpu.reg_a := by
  simp [cpu_store8]

@[simp] theorem cpu_store8_reg_x (st : St) (a v : Nat) : (cpu_store8 st a v).cpu.reg_x = st.cpu.reg_x := by
  simp [cpu_store8]

@[simp] theorem cpu_store8_reg_y (st : St) (a v : Nat) : (cpu_store8 st a v).cpu.reg_y = st.cpu.reg_y := by
  simp [cpu_store8]

@[simp] theorem cpu_store8_reg_pc (st : St) (a v : Nat) : (cpu_store8 st a v).cpu.reg_pc = st.cpu.reg_pc := by
  simp [cpu_store8]

@[simp] theorem cpu_store8_reg_s (st : St) (a v : Nat) : (cpu_store8 st a v).cpu.reg_s = st.cpu.reg_s := by
  simp [cpu_store8]

@[simp] theorem cpu_store8_reg_p (st : St) (a v : Nat) : (cpu_store8 st a v).cpu.reg_p = st.cpu.reg_p := by
  simp [cpu_store8]

@[simp] theorem cpu_store8_master_clock (st : St) (a v : Nat) : (cpu_store8 st a v).cpu.master_clock = st.cpu.master_clock := by
  simp [cpu_store8]

@[simp] theorem cpu_store8_mem (st : St) (a v : Nat) : (cpu_store8 st a v).mem = fun b => if b = a % 65536 then v % 256 else st.mem b := by
  simp [cpu_store8]

@[simp] theorem cpu_store8_trace (st : St) (a v : Nat) : (cpu_store8 st a v).trace = st.trace ++ [BusEv.store (a % 65536) (v % 256)] := by
  simp [cpu_store8]

@[simp] theorem tick_reg_a (st : St) : (tick st).cpu.reg_a = st.cpu.reg_a := by
  simp [tick]

@[simp] theorem tick_reg_x (st : St) : (tick st).cpu.reg_x = st.cpu.reg_x := by
  simp [tick]

@[simp] theorem tick_reg_y (st : St) : (tick st).cpu.reg_y = st.cpu.reg_y := by
  simp [tick]

@[simp] theorem tick_reg_pc (st : St) : (tick st).cpu.reg_pc = st.cpu.reg_pc := by
  simp [tick]

@[simp] theorem tick_reg_s (st : St) : (tick st).cpu.reg_s = st.cpu.reg_s := by
  simp [tick]

@[simp] theorem tick_reg_p (st : St) : (tick st).cpu.reg_p = st.cpu.reg_p := by
  simp [tick]

@[simp] theorem tick_master_clock (st : St) : (tick st).cpu.master_clock = st.cpu.master_clock + CPU_CLOCK_DIV := by
  simp [tick]

@[simp] theorem tick_mem (st : St) : (tick st).mem = st.mem := by
  simp [tick]

@[simp] theorem tick_trace (st : St) : (tick st).trace = st.trace := by
  simp [tick]

@[simp] theorem withA_reg_a (st : St) (v : Nat) : (withA st v).cpu.reg_a = v := by
  simp [withA]

@[simp] theorem withA_reg_x (st : St) (v : Nat) : (withA st v).cpu.reg_x = st.cpu.reg_x := by
  simp [withA]

@[simp] theorem withA_reg_y (st : St) (v : Nat) : (withA st v).cpu.reg_y = st.cpu.reg_y := by
  simp [withA]

@[simp] theorem withA_reg_pc (st : St) (v : Nat) : (withA st v).cpu.reg_pc = st.cpu.reg_pc := by
  simp [withA]

@[simp] theorem withA_reg_s (st : St) (v : Nat) : (withA st v).cpu.reg_s = st.cpu.reg_s := by
  simp [withA]

@[simp] theorem withA_reg_p (st : St) (v : Nat) : (withA st v).cpu.reg_p = st.cpu.reg_p := by
  simp [withA]

@[simp] theorem withA_master_clock (st : St) (v : Nat) : (withA st v).cpu.master_clock = st.cpu.master_clock := by
  simp [withA]

@[simp] theorem withA_mem (st : St) (v : Nat) : (withA st v).mem = st.mem := by
  simp [withA]

@[simp] theorem withA_trace (st : St) (v : Nat) : (withA st v).trace = st.trace := by
  simp [withA]

@[simp] theorem withX_reg_a (st : St) (v : Nat) : (withX st v).cpu.reg_a = st.cpu.reg_a := by
  simp [withX]

@[simp] theorem withX_reg_x (st : St) (v : Nat) : (withX st v).cpu.reg_x = v := by
  simp [withX]

@[simp] theorem withX_reg_y (st : St) (v : Nat) : (withX st v).cpu.reg_y = st.cpu.reg_y := by
  simp [withX]

@[simp] theorem withX_reg_pc (st : St) (v : Nat) : (withX st v).cpu.reg_pc = st.cpu.reg_pc := by
  simp [withX]

@[simp] theorem withX_reg_s (st : St) (v : Nat) : (withX st v).cpu.reg_s = st.cpu.reg_s := by
  simp [withX]

@[simp] theorem withX_reg_p (st : St) (v : Nat) : (withX st v).cpu.reg_p = st.cpu.reg_p := by
  simp [withX]

@[simp] theorem withX_master_clock (st : St) (v : Nat) : (withX st v).cpu.master_clock = st.cpu.master_clock := by
  simp [withX]

@[simp] theorem withX_mem (st : St) (v : Nat) : (withX st v).mem = st.mem := by
  simp [withX]

@[simp] theorem withX_trace (st : St) (v : Nat) : (withX st v).trace = st.trace := by
  simp [withX]

@[simp] theorem withY_reg_a (st : St) (v : Nat) : (withY st v).cpu.reg_a = st.cpu.reg_a := by
  simp [withY]

@[simp] theorem withY_reg_x (st : St) (v : Nat) : (withY st v).cpu.reg_x = st.cpu.reg_x := by
  simp [withY]

@[simp] theorem withY_reg_y (st : St) (v : Nat) : (withY st v).cpu.reg_y = v := by
  simp [withY]

@[simp] theorem withY_reg_pc (st : St) (v : Nat) : (withY st v).cpu.reg_pc = st.cpu.reg_pc := by
  simp [withY]

@[simp] theorem withY_reg_s (st : St) (v : Nat) : (withY st v).cpu.reg_s = st.cpu.reg_s := by
  simp [withY]

@[simp] theorem withY_reg_p (st : St) (v : Nat) : (withY st v).cpu.reg_p = st.cpu.reg_p := by
  simp [withY]

@[simp] theorem withY_master_clock (st : St) (v : Nat) : (withY st v).cpu.master_clock = st.cpu.master_clock := by
  simp [withY]

@[simp] theorem withY_mem (st : St) (v : Nat) : (withY st v).mem = st.mem := by
  simp [withY]

@[simp] theorem withY_trace (st : St) (v : Nat) : (withY st v).trace = st.trace := by
  simp [withY]

@[simp] theorem withPC_reg_a (st : St) (v : Nat) : (withPC st v).cpu.reg_a = st.cpu.reg_a := by
  simp [withPC]

@[simp] theorem withPC_reg_x (st : St) (v : Nat) : (withPC st v).cpu.reg_x = st.cpu.reg_x := by
  simp [withPC]

@[simp] theorem withPC_reg_y (st : St) (v : Nat) : (withPC st v).cpu.reg_y = st.cpu.reg_y := by
  simp [withPC]

@[simp] theorem withPC_reg_pc (st : St) (v : Nat) : (withPC st v).cpu.reg_pc = v := by
  simp [withPC]

@[simp] theorem withPC_reg_s (st : St) (v : Nat) : (withPC st v).cpu.reg_s = st.cpu.reg_s := by
  simp [withPC]

@[simp] theorem withPC_reg_p (st : St) (v : Nat) : (withPC st v).cpu.reg_p = st.cpu.reg_p := by
  simp [withPC]

@[simp] theorem withPC_master_clock (st : St) (v : Nat) : (withPC st v).cpu.master_clock = st.cpu.master_clock := by
  simp [withPC]

@[simp] theorem withPC_mem (st : St) (v : Nat) : (withPC st v).mem = st.mem := by
  simp [withPC]

@[simp] theorem withPC_trace (st : St) (v : Nat) : (withPC st v).trace = st.trace := by
  simp [withPC]

@[simp] theorem withS_reg_a (st : St) (v : Nat) : (withS st v).cpu.reg_a = st.cpu.reg_a := by
  simp [withS]

@[simp] theorem withS_reg_x (st : St) (v : Nat) : (withS st v).cpu.reg_x = st.cpu.reg_x := by
  simp [withS]

@[simp] theorem withS_reg_y (st : St) (v : Nat) : (withS st v).cpu.reg_y = st.cpu.reg_y := by
  simp [withS]

@[simp] theorem withS_reg_pc (st : St) (v : Nat) : (withS st v).cpu.reg_pc = st.cpu.reg_pc := by
  simp [withS]

@[simp] theorem withS_reg_s (st : St) (v : Nat) : (withS st v).cpu.reg_s = v := by
  simp [withS]

@[simp] theorem withS_reg_p (st : St) (v : Nat) : (withS st v).cpu.reg_p = st.cpu.reg_p := by
  simp [withS]

@[simp] theorem withS_master_clock (st : St) (v : Nat) : (withS st v).cpu.master_clock = st.cpu.master_clock := by
  simp [withS]

@[simp] theorem withS_mem (st : St) (v : Nat) : (withS st v).mem = st.mem := by
  simp [withS]

@[simp] theorem withS_trace (st : St) (v : Nat) : (withS st v).trace = st.trace := by
  simp [withS]

@[simp] theorem withP_reg_a (st : St) (v : Nat) : (withP st v).cpu.reg_a = st.cpu.reg_a := by
  simp [withP]

@[simp] theorem withP_reg_x (st : St) (v : Nat) : (withP st v).cpu.reg_x = st.cpu.reg_x := by
  simp [withP]

@[simp] theorem withP_reg_y (st : St) (v : Nat) : (withP st v).cpu.reg_y = st.cpu.reg_y := by
  simp [withP]

@[simp] theorem withP_reg_pc (st : St) (v : Nat) : (withP st v).cpu.reg_pc = st.cpu.reg_pc := by
  simp [withP]

@[simp] theorem withP_reg_s (st : St) (v : Nat) : (withP st v).cpu.reg_s = st.cpu.reg_s := by
  simp [withP]

@[simp] theorem withP_reg_p (st : St) (v : Nat) : (withP st v).cpu.reg_p = v := by
  simp [withP]

@[simp] theorem withP_master_clock (st : St) (v : Nat) : (withP st v).cpu.master_clock = st.cpu.master_clock := by
  simp [withP]

@[simp] theorem withP_mem (st : St) (v : Nat) : (withP st v).mem = st.mem := by
  simp [withP]

@[simp] theorem withP_trace (st : St) (v : Nat) : (withP st v).trace = st.trace := by
  simp [withP]

@[simp] theorem withClock_reg_a (st : St) (v : Nat) : (withClock st v).cpu.reg_a = st.cpu.reg_a := by
  simp [withClock]

@[simp] theorem withClock_reg_x (st : St) (v : Nat) : (withClock st v).cpu.reg_x = st.cpu.reg_x := by
  simp [withClock]

@[simp] theorem withClock_reg_y (st : St) (v : Nat) : (withClock st v).cpu.reg_y = st.cpu.reg_y := by
  simp [withClock]

@[simp] theorem withClock_reg_pc (st : St) (v : Nat) : (withClock st v).cpu.reg_pc = st.cpu.reg_pc := by
  simp [withClock]

@[simp] theorem withClock_reg_s (st : St) (v : Nat) : (withClock st v).cpu.reg_s = st.cpu.reg_s := by
  simp [withClock]

@[simp] theorem withClock_reg_p (st : St) (v : Nat) : (withClock st v).cpu.reg_p = st.cpu.reg_p := by
  simp [withClock]

@[simp] theorem withClock_master_clock (st : St) (v : Nat) : (withClock st v).cpu.master_clock = v := by
  simp [withClock]

@[simp] theorem withClock_mem (st : St) (v : Nat) : (withClock st v).mem = st.mem := by
  simp [withClock]

@[simp] theorem withClock_trace (st : St) (v : Nat) : (withClock st v).trace = st.trace := by
  simp [withClock]

@[simp] theorem push_reg_a (st : St) (v : Nat) : (push st v).cpu.reg_a = st.cpu.reg_a := by
  simp [push, cpu_store8, tick, withS]

@[simp] theorem push_reg_x (st : St) (v : Nat) : (push st v).cpu.reg_x = st.cpu.reg_x := by
  simp [push, cpu_store8, tick, withS]

@[simp] theorem push_reg_y (st : St) (v : Nat) : (push st v).cpu.reg_y = st.cpu.reg_y := by
  simp [push, cpu_store8, tick, withS]

@[simp] theorem push_reg_pc (st : St) (v : Nat) : (push st v).cpu.reg_pc = st.cpu.reg_pc := by
  simp [push, cpu_store8, tick, withS]

@[simp] theorem push_reg_s (st : St) (v : Nat) : (push st v).cpu.reg_s = (st.cpu.reg_s + 255) % 256 := by
  simp [push, cpu_store8, tick, withS]

@[simp] theorem push_reg_p (st : St) (v : Nat) : (push st v).cpu.reg_p = st.cpu.reg_p := by
  simp [push, cpu_store8, tick, withS]

@[simp] theorem push_master_clock (st : St) (v : Nat) : (push st v).cpu.master_clock = st.cpu.master_clock + CPU_CLOCK_DIV := by
  simp [push, cpu_store8, tick, withS]

@[simp] theorem push_mem (st : St) (v : Nat) : (push st v).mem = fun b => if b = (0x0100 + st.cpu.reg_s % 256) % 65536 then v % 256 else st.mem b := by
  simp [push, cpu_store8, tick, withS]

@[simp] theorem push_trace (st : St) (v : Nat) : (push st v).trace = st.trace ++ [BusEv.store ((0x0100 + st.cpu.reg_s % 256) % 65536) (v % 256)] := by
  simp [push, cpu_store8, tick, withS]

@[simp] theorem pull_reg_a (st : St) : (pull st).2.cpu.reg_a = st.cpu.reg_a := by
  simp [pull, cpu_load8, tick, withS]

@[simp] theorem pull_reg_x (st : St) : (pull st).2.cpu.reg_x = st.cpu.reg_x := by
  simp [pull, cpu_load8, tick, withS]

@[simp] theorem pull_reg_y (st : St) : (pull st).2.cpu.reg_y = st.cpu.reg_y := by
  simp [pull, cpu_load8, tick, withS]

@[simp] theorem pull_reg_pc (st : St) : (pull st).2.cpu.reg_pc = st.cpu.reg_pc := by
  simp [pull, cpu_load8, tick, withS]

@[simp] theorem pull_reg_s (st : St) : (pull st).2.cpu.reg_s = (st.cpu.reg_s + 1) % 256 := by
  simp [pull, cpu_load8, tick, withS]

@[simp] theorem pull_reg_p (st : St) : (pull st).2.cpu.reg_p = st.cpu.reg_p := by
  simp [pull, cpu_load8, tick, withS]

@[simp] theorem pull_master_clock (st : St) : (pull st).2.cpu.master_clock = st.cpu.master_clock + CPU_CLOCK_DIV := by
  simp [pull, cpu_load8, tick, withS]

@[simp] theorem pull_mem (st : St) : (pull st).2.mem = st.mem := by
  simp [pull, cpu_load8, tick, withS]

@[simp] theorem pull_trace (st : St) : (pull st).2.trace = st.trace ++ [BusEv.load ((0x0100 + (st.cpu.reg_s + 1) % 256 % 256) % 65536)] := by
  simp [pull, cpu_load8, tick, withS]

@[simp] theorem setFlag_reg_a (st : St) (f : Flags) (v : Prop) [Decidable v] : (setFlag st f v).cpu.reg_a = st.cpu.reg_a := by
  simp [setFlag, withP]

@[simp] theorem setFlag_reg_x (st : St) (f : Flags) (v : Prop) [Decidable v] : (setFlag st f v).cpu.reg_x = st.cpu.reg_x := by
  simp [setFlag, withP]

@[simp] theorem setFlag_reg_y (st : St) (f : Flags) (v : Prop) [Decidable v] : (setFlag st f v).cpu.reg_y = st.cpu.reg_y := by
  simp [setFlag, withP]

@[simp] theorem setFlag_reg_pc (st : St) (f : Flags) (v : Prop) [Decidable v] : (setFlag st f v).cpu.reg_pc = st.cpu.reg_pc := by
  simp [setFlag, withP]

@[simp] theorem setFlag_reg_s (st : St) (f : Flags) (v : Prop) [Decidable v] : (setFlag st f v).cpu.reg_s = st.cpu.reg_s := by
  simp [setFlag, withP]

@[simp] theorem setFlag_reg_p (st : St) (f : Flags) (v : Prop) [Decidable v] : (setFlag st f v).cpu.reg_p = setFlagP st.cpu.reg_p f v := by
  simp [setFlag, withP]

@[simp] theorem setFlag_master_clock (st : St) (f : Flags) (v : Prop) [Decidable v] : (setFlag st f v).cpu.master_clock = st.cpu.master_clock := by
  simp [setFlag, withP]

@[simp] theorem setFlag_mem (st : St) (f : Flags) (v : Prop) [Decidable v] : (setFlag st f v).mem = st.mem := by
  simp [setFlag, withP]

@[simp] theorem setFlag_trace (st : St) (f : Flags) (v : Prop) [Decidable v] : (setFlag st f v).trace = st.trace := by
  simp [setFlag, withP]

@[simp] theorem cpu_load8_fst (st : St) (a : Nat) : (cpu_load8 st a).1 = st.mem (a % 65536) % 256 := by
  simp [cpu_load8]

@[simp] theorem pull_fst (st : St) : (pull st).1 = st.mem ((0x0100 + (st.cpu.reg_s + 1) % 256 % 256) % 65536) % 256 := by
  simp [pull, cpu_load8, withS]


/-! ### Lemmas about `get_operand_addr` -/

/-- Cycles charged by each addressing mode, lower bound. -/
def opndCycMin : AddressingMode → Nat
  | .Implicit => 1
  | .ZeroPage => 1
  | .ZeroPageX => 2
  | .ZeroPageY => 2
  | .Absolute => 2
  | .AbsoluteX => 2
  | .AbsoluteY => 2
  | .Immediate => 0
  | .Relative => 0
  | .Indirect => 4
  | .IndexedIndirect => 4
  | .IndirectIndexed => 3

/-- Cycles charged by each addressing mode, upper bound. -/
def opndCycMax : AddressingMode → Nat
  | .Implicit => 1
  | .ZeroPage => 1
  | .ZeroPageX => 2
  | .ZeroPageY => 2
  | .Absolute => 2
  | .AbsoluteX => 3
  | .AbsoluteY => 3
  | .Immediate => 0
  | .Relative => 0
  | .Indirect => 4
  | .IndexedIndirect => 4
  | .IndirectIndexed => 4

/-- Number of operand bytes each addressing mode consumes from the
instruction stream. -/
def operandLen : AddressingMode → Nat
  | .Implicit => 0
  | .ZeroPage => 1
  | .ZeroPageX => 1
  | .ZeroPageY => 1
  | .Absolute => 2
  | .AbsoluteX => 2
  | .AbsoluteY => 2
  | .Immediate => 1
  | .Relative => 1
  | .Indirect => 2
  | .IndexedIndirect => 1
  | .IndirectIndexed => 1

theorem opnd_reg_a (m : AddressingMode) (r : Bool) (st : St) :
    ((get_operand_addr m r st).2).cpu.reg_a = st.cpu.reg_a := by
  cases m <;> simp only [get_operand_addr] <;> (try split) <;> simp

theorem opnd_reg_x (m : AddressingMode) (r : Bool) (st : St) :
    ((get_operand_addr m r st).2).cpu.reg_x = st.cpu.reg_x := by
  cases m <;> simp only [get_operand_addr] <;> (try split) <;> simp

theorem opnd_reg_y (m : AddressingMode) (r : Bool) (st : St) :
    ((get_operand_addr m r st).2).cpu.reg_y = st.cpu.reg_y := by
  cases m <;> simp only [get_operand_addr] <;> (try split) <;> simp

theorem opnd_reg_s (m : AddressingMode) (r : Bool) (st : St) :
    ((get_operand_addr m r st).2).cpu.reg_s = st.cpu.reg_s := by
  cases m <;> simp only [get_operand_addr] <;> (try split) <;> simp

theorem opnd_reg_p (m : AddressingMode) (r : Bool) (st : St) :
    ((get_operand_addr m r st).2).cpu.reg_p = st.cpu.reg_p := by
  cases m <;> simp only [get_operand_addr] <;> (try split) <;> simp

theorem opnd_mem (m : AddressingMode) (r : Bool) (st : St) :
    ((get_operand_addr m r st).2).mem = st.mem := by
  cases m <;> simp only [get_operand_addr] <;> (try split) <;> simp

theorem opnd_reg_pc (m : AddressingMode) (r : Bool) (st : St)
    (h : st.cpu.reg_pc < 65536) :
    ((get_operand_addr m r st).2).cpu.reg_pc
      = (st.cpu.reg_pc + operandLen m) % 65536 := by
  cases m <;> simp only [get_operand_addr, operandLen] <;> (try split) <;>
    simp <;> omega

theorem opnd_bounds (m : AddressingMode) (r : Bool) (st : St) :
    st.cpu.master_clock + CPU_CLOCK_DIV * opndCycMin m
        ≤ ((get_operand_addr m r st).2).cpu.master_clock ∧
    ((get_operand_addr m r st).2).cpu.master_clock
        ≤ st.cpu.master_clock + CPU_CLOCK_DIV * opndCycMax m ∧
    st.trace.length + opndCycMin m ≤ ((get_operand_addr m r st).2).trace.length ∧
    ((get_operand_addr m r st).2).trace.length ≤ st.trace.length + opndCycMax m := by
  cases m <;> simp only [get_operand_addr, opndCycMin, opndCycMax] <;>
    (try split) <;> simp [CPU_CLOCK_DIV] <;> omega

/-! ### Status-register bit lemmas -/

/-- Well-formedness of the packed status byte: a u8 value with bits 4 (B)
and 5 (U), mask `0x30`, clear. -/
def PStatusOk (p : Nat) : Prop := p < 256 ∧ p &&& 0x30 = 0

set_option maxRecDepth 8192 in
theorem setFlagP_ok (p : Nat) (f : Flags) (v : Prop) [Decidable v]
    (h : PStatusOk p) : PStatusOk (setFlagP p f v) := by
  have key : ∀ q < 256, q &&& 48 = 0 →
      ∀ fv ∈ [1, 2, 4, 8, 64, 128],
        ((q ||| fv) < 256 ∧ (q ||| fv) &&& 48 = 0) ∧
        ((q &&& (255 ^^^ fv)) < 256 ∧ (q &&& (255 ^^^ fv)) &&& 48 = 0) := by decide
  obtain ⟨h1, h2⟩ := h
  have hf : f.val ∈ [1, 2, 4, 8, 64, 128] := by cases f <;> simp [Flags.val]
  have hk := key p h1 h2 f.val hf
  unfold setFlagP PStatusOk
  split_ifs
  · exact hk.1
  · exact hk.2

set_option maxRecDepth 8192 in
theorem mask_cf_ok (v : Nat) (hv : v < 256) : PStatusOk (v &&& 0xCF) := by
  have key : ∀ q < 256, (q &&& 0xCF) < 256 ∧ (q &&& 0xCF) &&& 48 = 0 := by decide
  exact key v hv

/-! ### Lemmas about `relative_branch` -/

theorem relative_branch_reg_p (op : Nat) (st : St) :
    (relative_branch op st).cpu.reg_p = st.cpu.reg_p := by
  simp only [relative_branch, cpu_load8]
  split_ifs <;> simp

theorem relative_branch_reg_a (op : Nat) (st : St) :
    (relative_branch op st).cpu.reg_a = st.cpu.reg_a := by
  simp only [relative_branch, cpu_load8]
  split_ifs <;> simp

theorem relative_branch_mem (op : Nat) (st : St) :
    (relative_branch op st).mem = st.mem := by
  simp only [relative_branch, cpu_load8]
  split_ifs <;> simp

theorem relative_branch_bounds (op : Nat) (st : St) :
    st.cpu.master_clock + CPU_CLOCK_DIV * 1 ≤ (relative_branch op st).cpu.master_clock ∧
    (relative_branch op st).cpu.master_clock ≤ st.cpu.master_clock + CPU_CLOCK_DIV * 2 ∧
    st.trace.length + 1 ≤ (relative_branch op st).trace.length ∧
    (relative_branch op st).trace.length ≤ st.trace.length + 2 := by
  simp only [relative_branch, cpu_load8]
  split_ifs <;> simp [CPU_CLOCK_DIV] <;> omega

/-! ### Preservation of the B/U status bits (claim C10 machinery) -/

theorem execOp_preserves_p (k : OpKind) (m : AddressingMode) (st : St)
    (h : PStatusOk st.cpu.reg_p) : PStatusOk ((execOp k m st).cpu.reg_p) := by
  cases k <;>
    simp only [execOp, op_adc, op_and, op_asl_a, op_asl_m, op_bcc, op_bcs, op_beq, op_bit, op_bmi, op_bne, op_bpl, op_brk, op_bvc, op_bvs, op_clc, op_cld, op_cli, op_clv, op_cmp, op_cpx, op_cpy, op_dec, op_dex, op_dey, op_eor, op_inc, op_inx, op_iny, op_jmp, op_jsr, op_lda, op_ldx, op_ldy, op_lsr_a, op_lsr_m, op_nop, op_ora, op_pha, op_php, op_pla, op_plp, op_rol_a, op_rol_m, op_ror_a, op_ror_m, op_rti, op_rts, op_sbc, op_sec, op_sed, op_sei, op_sta, op_stx, op_sty, op_tax, op_tay, op_tsx, op_txa, op_txs, op_tya, op_invalid] <;>
    simp [opnd_reg_p, relative_branch_reg_p] <;>
    (try split_ifs) <;>
    (try simp [opnd_reg_p, relative_branch_reg_p]) <;>
    (repeat apply setFlagP_ok) <;>
    first
      | exact h
      | exact mask_cf_ok _ (Nat.mod_lt _ (by norm_num))

theorem reset_reg_p (st : St) : (reset st).cpu.reg_p = Flags.InterruptDisable.val := by
  simp [reset, cpu_load8]

theorem step_preserves_p (st : St) (h : PStatusOk st.cpu.reg_p) :
    PStatusOk ((execute_single_instruction st).cpu.reg_p) := by
  simp only [execute_single_instruction, cpu_load8]
  exact execOp_preserves_p _ _ _ (by simpa using h)

theorem reachable_PStatusOk (st : St) (h : Reachable st) : PStatusOk st.cpu.reg_p := by
  induction h with
  | init mem =>
      show PStatusOk Cpu.new.reg_p
      unfold PStatusOk Cpu.new
      decide
  | viaReset _ _ =>
      rw [reset_reg_p]
      unfold PStatusOk Flags.val
      decide
  | viaStep _ ih =>
      exact step_preserves_p _ ih

/-- C10: in every CPU state reachable from construction by any sequence of
resets and executed instructions, bits 4 and 5 of the status register `P`
(the B and U positions, mask `0x30`) are zero: reset sets `P` to the
InterruptDisable bit alone, the flag setters never touch those bits (the
`Flags` enum has no B or U variant), and PLP and RTI mask the pulled status
byte with `0xCF`. -/
theorem C10_reachable_BU_bits_clear (st : St) (h : Reachable st) :
    st.cpu.reg_p &&& 0x30 = 0 :=
  (reachable_PStatusOk st h).2

/-- Witness for C10 at the freshly constructed CPU with a zeroed bus. -/
theorem C10_reachable_BU_bits_clear_witness :
    Reachable ⟨Cpu.new, fun _ => 0, []⟩ ∧
      (⟨Cpu.new, fun _ => 0, []⟩ : St).cpu.reg_p &&& 0x30 = 0 :=
  ⟨Reachable.init _, C10_reachable_BU_bits_clear _ (Reachable.init _)⟩

/-! ### Cycle and bus-call bounds per handler (claim C5 machinery) -/

theorem opndCycMax_le (m : AddressingMode) : opndCycMax m ≤ 4 := by
  cases m <;> simp [opndCycMax]

theorem opndCycMin_le (m : AddressingMode) : opndCycMin m ≤ opndCycMax m := by
  cases m <;> simp [opndCycMin, opndCycMax]

theorem opndCycMin_pos (m : AddressingMode) (h1 : m ≠ AddressingMode.Immediate)
    (h2 : m ≠ AddressingMode.Relative) : 1 ≤ opndCycMin m := by
  cases m <;> simp [opndCycMin] at *

theorem op_adc_bounds (m : AddressingMode) (st : St) :
    st.cpu.master_clock + CPU_CLOCK_DIV * (opndCycMin m + 1) ≤ (op_adc m st).cpu.master_clock ∧
    (op_adc m st).cpu.master_clock ≤ st.cpu.master_clock + CPU_CLOCK_DIV * (opndCycMax m + 1) ∧
    st.trace.length + (opndCycMin m + 1) ≤ (op_adc m st).trace.length ∧
    (op_adc m st).trace.length ≤ st.trace.length + (opndCycMax m + 1) := by
  have hb := opnd_bounds m true st
  simp only [op_adc]
  simp [CPU_CLOCK_DIV] at hb ⊢
  omega

theorem op_asl_m_bounds (m : AddressingMode) (st : St) :
    st.cpu.master_clock + CPU_CLOCK_DIV * (opndCycMin m + 3) ≤ (op_asl_m m st).cpu.master_clock ∧
    (op_asl_m m st).cpu.master_clock ≤ st.cpu.master_clock + CPU_CLOCK_DIV * (opndCycMax m + 3) ∧
    st.trace.length + (opndCycMin m + 3) ≤ (op_asl_m m st).trace.length ∧
    (op_asl_m m st).trace.length ≤ st.trace.length + (opndCycMax m + 3) := by
  have hb := opnd_bounds m false st
  simp only [op_asl_m]
  simp [CPU_CLOCK_DIV] at hb ⊢
  omega

theorem op_sta_bounds (m : AddressingMode) (st : St) :
    st.cpu.master_clock + CPU_CLOCK_DIV * (opndCycMin m + 1) ≤ (op_sta m st).cpu.master_clock ∧
    (op_sta m st).cpu.master_clock ≤ st.cpu.master_clock + CPU_CLOCK_DIV * (opndCycMax m + 1) ∧
    st.trace.length + (opndCycMin m + 1) ≤ (op_sta m st).trace.length ∧
    (op_sta m st).trace.length ≤ st.trace.length + (opndCycMax m + 1) := by
  have hb := opnd_bounds m false st
  simp only [op_sta]
  simp [CPU_CLOCK_DIV] at hb ⊢
  omega

theorem op_jmp_bounds (m : AddressingMode) (st : St) :
    st.cpu.master_clock + CPU_CLOCK_DIV * opndCycMin m ≤ (op_jmp m st).cpu.master_clock ∧
    (op_jmp m st).cpu.master_clock ≤ st.cpu.master_clock + CPU_CLOCK_DIV * opndCycMax m ∧
    st.trace.length + opndCycMin m ≤ (op_jmp m st).trace.length ∧
    (op_jmp m st).trace.length ≤ st.trace.length + opndCycMax m := by
  have hb := opnd_bounds m false st
  simp only [op_jmp]
  simp [CPU_CLOCK_DIV] at hb ⊢
  omega

theorem op_clc_bounds (m : AddressingMode) (st : St) :
    (op_clc m st).cpu.master_clock = st.cpu.master_clock + CPU_CLOCK_DIV * 1 ∧
    (op_clc m st).trace.length = st.trace.length + 1 := by
  simp only [op_clc, get_operand_addr]
  simp [CPU_CLOCK_DIV]

theorem op_pla_bounds (m : AddressingMode) (st : St) :
    (op_pla m st).cpu.master_clock = st.cpu.master_clock + CPU_CLOCK_DIV * 3 ∧
    (op_pla m st).trace.length = st.trace.length + 3 := by
  simp only [op_pla, get_operand_addr]
  simp [CPU_CLOCK_DIV]
  try omega

theorem op_brk_bounds (m : AddressingMode) (st : St) :
    (op_brk m st).cpu.master_clock = st.cpu.master_clock + CPU_CLOCK_DIV * 5 ∧
    (op_brk m st).trace.length = st.trace.length + 5 := by
  simp only [op_brk]
  simp [CPU_CLOCK_DIV]
  try omega

theorem op_jsr_bounds (m : AddressingMode) (st : St) :
    (op_jsr m st).cpu.master_clock = st.cpu.master_clock + CPU_CLOCK_DIV * 5 ∧
    (op_jsr m st).trace.length = st.trace.length + 5 := by
  simp only [op_jsr]
  simp [CPU_CLOCK_DIV]
  try omega

theorem op_rts_bounds (m : AddressingMode) (st : St) :
    (op_rts m st).cpu.master_clock = st.cpu.master_clock + CPU_CLOCK_DIV * 5 ∧
    (op_rts m st).trace.length = st.trace.length + 5 := by
  simp only [op_rts, get_operand_addr]
  simp [CPU_CLOCK_DIV]
  try omega

theorem op_rti_bounds (m : AddressingMode) (st : St) :
    (op_rti m st).cpu.master_clock = st.cpu.master_clock + CPU_CLOCK_DIV * 5 ∧
    (op_rti m st).trace.length = st.trace.length + 5 := by
  simp only [op_rti, get_operand_addr]
  simp [CPU_CLOCK_DIV]
  try omega

theorem op_bcc_bounds (m : AddressingMode) (st : St) :
    st.cpu.master_clock + CPU_CLOCK_DIV * 1 ≤ (op_bcc m st).cpu.master_clock ∧
    (op_bcc m st).cpu.master_clock ≤ st.cpu.master_clock + CPU_CLOCK_DIV * 3 ∧
    st.trace.length + 1 ≤ (op_bcc m st).trace.length ∧
    (op_bcc m st).trace.length ≤ st.trace.length + 3 := by
  simp only [op_bcc]
  set q := get_operand_addr AddressingMode.Relative false st with hq
  have hb := opnd_bounds AddressingMode.Relative false st
  rw [← hq] at hb
  have hr := relative_branch_bounds (cpu_load8 q.2 q.1).1 (tick (cpu_load8 q.2 q.1).2)
  split_ifs <;> simp [CPU_CLOCK_DIV, opndCycMin, opndCycMax] at hb hr ⊢ <;> omega

theorem op_and_bounds (m : AddressingMode) (st : St) :
    st.cpu.master_clock + CPU_CLOCK_DIV * (opndCycMin m + 1) ≤ (op_and m st).cpu.master_clock ∧
    (op_and m st).cpu.master_clock ≤ st.cpu.master_clock + CPU_CLOCK_DIV * (opndCycMax m + 1) ∧
    st.trace.length + (opndCycMin m + 1) ≤ (op_and m st).trace.length ∧
    (op_and m st).trace.length ≤ st.trace.length + (opndCycMax m + 1) := by
  have hb := opnd_bounds m true st
  simp only [op_and]
  simp [CPU_CLOCK_DIV] at hb ⊢
  omega

theorem op_bit_bounds (m : AddressingMode) (st : St) :
    st.cpu.master_clock + CPU_CLOCK_DIV * (opndCycMin m + 1) ≤ (op_bit m st).cpu.master_clock ∧
    (op_bit m st).cpu.master_clock ≤ st.cpu.master_clock + CPU_CLOCK_DIV * (opndCycMax m + 1) ∧
    st.trace.length + (opndCycMin m + 1) ≤ (op_bit m st).trace.length ∧
    (op_bit m st).trace.length ≤ st.trace.length + (opndCycMax m + 1) := by
  have hb := opnd_bounds m true st
  simp only [op_bit]
  simp [CPU_CLOCK_DIV] at hb ⊢
  omega

theorem op_cmp_bounds (m : AddressingMode) (st : St) :
    st.cpu.master_clock + CPU_CLOCK_DIV * (opndCycMin m + 1) ≤ (op_cmp m st).cpu.master_clock ∧
    (op_cmp m st).cpu.master_clock ≤ st.cpu.master_clock + CPU_CLOCK_DIV * (opndCycMax m + 1) ∧
    st.trace.length + (opndCycMin m + 1) ≤ (op_cmp m st).trace.length ∧
    (op_cmp m st).trace.length ≤ st.trace.length + (opndCycMax m + 1) := by
  have hb := opnd_bounds m true st
  simp only [op_cmp]
  simp [CPU_CLOCK_DIV] at hb ⊢
  omega

theorem op_cpx_bounds (m : AddressingMode) (st : St) :
    st.cpu.master_clock + CPU_CLOCK_DIV * (opndCycMin m + 1) ≤ (op_cpx m st).cpu.master_clock ∧
    (op_cpx m st).cpu.master_clock ≤ st.cpu.master_clock + CPU_CLOCK_DIV * (opndCycMax m + 1) ∧
    st.trace.length + (opndCycMin m + 1) ≤ (op_cpx m st).trace.length ∧
    (op_cpx m st).trace.length ≤ st.trace.length + (opndCycMax m + 1) := by
  have hb := opnd_bounds m true st
  simp only [op_cpx]
  simp [CPU_CLOCK_DIV] at hb ⊢
  omega

theorem op_cpy_bounds (m : AddressingMode) (st : St) :
    st.cpu.master_clock + CPU_CLOCK_DIV * (opndCycMin m + 1) ≤ (op_cpy m st).cpu.master_clock ∧
    (op_cpy m st).cpu.master_clock ≤ st.cpu.master_clock + CPU_CLOCK_DIV * (opndCycMax m + 1) ∧
    st.trace.length + (opndCycMin m + 1) ≤ (op_cpy m st).trace.length ∧
    (op_cpy m st).trace.length ≤ st.trace.length + (opndCycMax m + 1) := by
  have hb := opnd_bounds m true st
  simp only [op_cpy]
  simp [CPU_CLOCK_DIV] at hb ⊢
  omega

theorem op_eor_bounds (m : AddressingMode) (st : St) :
    st.cpu.master_clock + CPU_CLOCK_DIV * (opndCycMin m + 1) ≤ (op_eor m st).cpu.master_clock ∧
    (op_eor m st).cpu.master_clock ≤ st.cpu.master_clock + CPU_CLOCK_DIV * (opndCycMax m + 1) ∧
    st.trace.length + (opndCycMin m + 1) ≤ (op_eor m st).trace.length ∧
    (op_eor m st).trace.length ≤ st.trace.length + (opndCycMax m + 1) := by
  have hb := opnd_bounds m true st
  simp only [op_eor]
  simp [CPU_CLOCK_DIV] at hb ⊢
  omega

theorem op_lda_bounds (m : AddressingMode) (st : St) :
    st.cpu.master_clock + CPU_CLOCK_DIV * (opndCycMin m + 1) ≤ (op_lda m st).cpu.master_clock ∧
    (op_lda m st).cpu.master_clock ≤ st.cpu.master_clock + CPU_CLOCK_DIV * (opndCycMax m + 1) ∧
    st.trace.length + (opndCycMin m + 1) ≤ (op_lda m st).trace.length ∧
    (op_lda m st).trace.length ≤ st.trace.length + (opndCycMax m + 1) := by
  have hb := opnd_bounds m true st
  simp only [op_lda]
  simp [CPU_CLOCK_DIV] at hb ⊢
  omega

theorem op_ldx_bounds (m : AddressingMode) (st : St) :
    st.cpu.master_clock + CPU_CLOCK_DIV * (opndCycMin m + 1) ≤ (op_ldx m st).cpu.master_clock ∧
    (op_ldx m st).cpu.master_clock ≤ st.cpu.master_clock + CPU_CLOCK_DIV * (opndCycMax m + 1) ∧
    st.trace.length + (opndCycMin m + 1) ≤ (op_ldx m st).trace.length ∧
    (op_ldx m st).trace.length ≤ st.trace.length + (opndCycMax m + 1) := by
  have hb := opnd_bounds m true st
  simp only [op_ldx]
  simp [CPU_CLOCK_DIV] at hb ⊢
  omega

theorem op_ldy_bounds (m : AddressingMode) (st : St) :
    st.cpu.master_clock + CPU_CLOCK_DIV * (opndCycMin m + 1) ≤ (op_ldy m st).cpu.master_clock ∧
    (op_ldy m st).cpu.master_clock ≤ st.cpu.master_clock + CPU_CLOCK_DIV * (opndCycMax m + 1) ∧
    st.trace.length + (opndCycMin m + 1) ≤ (op_ldy m st).trace.length ∧
    (op_ldy m st).trace.length ≤ st.trace.length + (opndCycMax m + 1) := by
  have hb := opnd_bounds m true st
  simp only [op_ldy]
  simp [CPU_CLOCK_DIV] at hb ⊢
  omega

theorem op_ora_bounds (m : AddressingMode) (st : St) :
    st.cpu.master_clock + CPU_CLOCK_DIV * (opndCycMin m + 1) ≤ (op_ora m st).cpu.master_clock ∧
    (op_ora m st).cpu.master_clock ≤ st.cpu.master_clock + CPU_CLOCK_DIV * (opndCycMax m + 1) ∧
    st.trace.length + (opndCycMin m + 1) ≤ (op_ora m st).trace.length ∧
    (op_ora m st).trace.length ≤ st.trace.length + (opndCycMax m + 1) := by
  have hb := opnd_bounds m true st
  simp only [op_ora]
  simp [CPU_CLOCK_DIV] at hb ⊢
  omega

theorem op_sbc_bounds (m : AddressingMode) (st : St) :
    st.cpu.master_clock + CPU_CLOCK_DIV * (opndCycMin m + 1) ≤ (op_sbc m st).cpu.master_clock ∧
    (op_sbc m st).cpu.master_clock ≤ st.cpu.master_clock + CPU_CLOCK_DIV * (opndCycMax m + 1) ∧
    st.trace.length + (opndCycMin m + 1) ≤ (op_sbc m st).trace.length ∧
    (op_sbc m st).trace.length ≤ st.trace.length + (opndCycMax m + 1) := by
  have hb := opnd_bounds m true st
  simp only [op_sbc]
  simp [CPU_CLOCK_DIV] at hb ⊢
  omega

theorem op_lsr_m_bounds (m : AddressingMode) (st : St) :
    st.cpu.master_clock + CPU_CLOCK_DIV * (opndCycMin m + 3) ≤ (op_lsr_m m st).cpu.master_clock ∧
    (op_lsr_m m st).cpu.master_clock ≤ st.cpu.master_clock + CPU_CLOCK_DIV * (opndCycMax m + 3) ∧
    st.trace.length + (opndCycMin m + 3) ≤ (op_lsr_m m st).trace.length ∧
    (op_lsr_m m st).trace.length ≤ st.trace.length + (opndCycMax m + 3) := by
  have hb := opnd_bounds m false st
  simp only [op_lsr_m]
  simp [CPU_CLOCK_DIV] at hb ⊢
  omega

theorem op_rol_m_bounds (m : AddressingMode) (st : St) :
    st.cpu.master_clock + CPU_CLOCK_DIV * (opndCycMin m + 3) ≤ (op_rol_m m st).cpu.master_clock ∧
    (op_rol_m m st).cpu.master_clock ≤ st.cpu.master_clock + CPU_CLOCK_DIV * (opndCycMax m + 3) ∧
    st.trace.length + (opndCycMin m + 3) ≤ (op_rol_m m st).trace.length ∧
    (op_rol_m m st).trace.length ≤ st.trace.length + (opndCycMax m + 3) := by
  have hb := opnd_bounds m false st
  simp only [op_rol_m]
  simp [CPU_CLOCK_DIV] at hb ⊢
  omega

theorem op_ror_m_bounds (m : AddressingMode) (st : St) :
    st.cpu.master_clock + CPU_CLOCK_DIV * (opndCycMin m + 3) ≤ (op_ror_m m st).cpu.master_clock ∧
    (op_ror_m m st).cpu.master_clock ≤ st.cpu.master_clock + CPU_CLOCK_DIV * (opndCycMax m + 3) ∧
    st.trace.length + (opndCycMin m + 3) ≤ (op_ror_m m st).trace.length ∧
    (op_ror_m m st).trace.length ≤ st.trace.length + (opndCycMax m + 3) := by
  have hb := opnd_bounds m false st
  simp only [op_ror_m]
  simp [CPU_CLOCK_DIV] at hb ⊢
  omega

theorem op_inc_bounds (m : AddressingMode) (st : St) :
    st.cpu.master_clock + CPU_CLOCK_DIV * (opndCycMin m + 3) ≤ (op_inc m st).cpu.master_clock ∧
    (op_inc m st).cpu.master_clock ≤ st.cpu.master_clock + CPU_CLOCK_DIV * (opndCycMax m + 3) ∧
    st.trace.length + (opndCycMin m + 3) ≤ (op_inc m st).trace.length ∧
    (op_inc m st).trace.length ≤ st.trace.length + (opndCycMax m + 3) := by
  have hb := opnd_bounds m false st
  simp only [op_inc]
  simp [CPU_CLOCK_DIV] at hb ⊢
  omega

theorem op_dec_bounds (m : AddressingMode) (st : St) :
    st.cpu.master_clock + CPU_CLOCK_DIV * (opndCycMin m + 3) ≤ (op_dec m st).cpu.master_clock ∧
    (op_dec m st).cpu.master_clock ≤ st.cpu.master_clock + CPU_CLOCK_DIV * (opndCycMax m + 3) ∧
    st.trace.length + (opndCycMin m + 3) ≤ (op_dec m st).trace.length ∧
    (op_dec m st).trace.length ≤ st.trace.length + (opndCycMax m + 3) := by
  have hb := opnd_bounds m false st
  simp only [op_dec]
  simp [CPU_CLOCK_DIV] at hb ⊢
  omega

theorem op_stx_bounds (m : AddressingMode) (st : St) :
    st.cpu.master_clock + CPU_CLOCK_DIV * (opndCycMin m + 1) ≤ (op_stx m st).cpu.master_clock ∧
    (op_stx m st).cpu.master_clock ≤ st.cpu.master_clock + CPU_CLOCK_DIV * (opndCycMax m + 1) ∧
    st.trace.length + (opndCycMin m + 1) ≤ (op_stx m st).trace.length ∧
    (op_stx m st).trace.length ≤ st.trace.length + (opndCycMax m + 1) := by
  have hb := opnd_bounds m false st
  simp only [op_stx]
  simp [CPU_CLOCK_DIV] at hb ⊢
  omega

theorem op_sty_bounds (m : AddressingMode) (st : St) :
    st.cpu.master_clock + CPU_CLOCK_DIV * (opndCycMin m + 1) ≤ (op_sty m st).cpu.master_clock ∧
    (op_sty m st).cpu.master_clock ≤ st.cpu.master_clock + CPU_CLOCK_DIV * (opndCycMax m + 1) ∧
    st.trace.length + (opndCycMin m + 1) ≤ (op_sty m st).trace.length ∧
    (op_sty m st).trace.length ≤ st.trace.length + (opndCycMax m + 1) := by
  have hb := opnd_bounds m false st
  simp only [op_sty]
  simp [CPU_CLOCK_DIV] at hb ⊢
  omega

theorem op_asl_a_bounds (m : AddressingMode) (st : St) :
    (op_asl_a m st).cpu.master_clock = st.cpu.master_clock + CPU_CLOCK_DIV * 1 ∧
    (op_asl_a m st).trace.length = st.trace.length + 1 := by
  simp only [op_asl_a, op_nop, get_operand_addr]
  simp [CPU_CLOCK_DIV]
  try omega

theorem op_lsr_a_bounds (m : AddressingMode) (st : St) :
    (op_lsr_a m st).cpu.master_clock = st.cpu.master_clock + CPU_CLOCK_DIV * 1 ∧
    (op_lsr_a m st).trace.length = st.trace.length + 1 := by
  simp only [op_lsr_a, op_nop, get_operand_addr]
  simp [CPU_CLOCK_DIV]
  try omega

theorem op_rol_a_bounds (m : AddressingMode) (st : St) :
    (op_rol_a m st).cpu.master_clock = st.cpu.master_clock + CPU_CLOCK_DIV * 1 ∧
    (op_rol_a m st).trace.length = st.trace.length + 1 := by
  simp only [op_rol_a, op_nop, get_operand_addr]
  simp [CPU_CLOCK_DIV]
  try omega

theorem op_ror_a_bounds (m : AddressingMode) (st : St) :
    (op_ror_a m st).cpu.master_clock = st.cpu.master_clock + CPU_CLOCK_DIV * 1 ∧
    (op_ror_a m st).trace.length = st.trace.length + 1 := by
  simp only [op_ror_a, op_nop, get_operand_addr]
  simp [CPU_CLOCK_DIV]
  try omega

theorem op_dex_bounds (m : AddressingMode) (st : St) :
    (op_dex m st).cpu.master_clock = st.cpu.master_clock + CPU_CLOCK_DIV * 1 ∧
    (op_dex m st).trace.length = st.trace.length + 1 := by
  simp only [op_dex, op_nop, get_operand_addr]
  simp [CPU_CLOCK_DIV]
  try omega

theorem op_dey_bounds (m : AddressingMode) (st : St) :
    (op_dey m st).cpu.master_clock = st.cpu.master_clock + CPU_CLOCK_DIV * 1 ∧
    (op_dey m st).trace.length = st.trace.length + 1 := by
  simp only [op_dey, op_nop, get_operand_addr]
  simp [CPU_CLOCK_DIV]
  try omega

theorem op_inx_bounds (m : AddressingMode) (st : St) :
    (op_inx m st).cpu.master_clock = st.cpu.master_clock + CPU_CLOCK_DIV * 1 ∧
    (op_inx m st).trace.length = st.trace.length + 1 := by
  simp only [op_inx, op_nop, get_operand_addr]
  simp [CPU_CLOCK_DIV]
  try omega

theorem op_iny_bounds (m : AddressingMode) (st : St) :
    (op_iny m st).cpu.master_clock = st.cpu.master_clock + CPU_CLOCK_DIV * 1 ∧
    (op_iny m st).trace.length = st.trace.length + 1 := by
  simp only [op_iny, op_nop, get_operand_addr]
  simp [CPU_CLOCK_DIV]
  try omega

theorem op_tax_bounds (m : AddressingMode) (st : St) :
    (op_tax m st).cpu.master_clock = st.cpu.master_clock + CPU_CLOCK_DIV * 1 ∧
    (op_tax m st).trace.length = st.trace.length + 1 := by
  simp only [op_tax, op_nop, get_operand_addr]
  simp [CPU_CLOCK_DIV]
  try omega

theorem op_tay_bounds (m : AddressingMode) (st : St) :
    (op_tay m st).cpu.master_clock = st.cpu.master_clock + CPU_CLOCK_DIV * 1 ∧
    (op_tay m st).trace.length = st.trace.length + 1 := by
  simp only [op_tay, op_nop, get_operand_addr]
  simp [CPU_CLOCK_DIV]
  try omega

theorem op_tsx_bounds (m : AddressingMode) (st : St) :
    (op_tsx m st).cpu.master_clock = st.cpu.master_clock + CPU_CLOCK_DIV * 1 ∧
    (op_tsx m st).trace.length = st.trace.length + 1 := by
  simp only [op_tsx, op_nop, get_operand_addr]
  simp [CPU_CLOCK_DIV]
  try omega

theorem op_txa_bounds (m : AddressingMode) (st : St) :
    (op_txa m st).cpu.master_clock = st.cpu.master_clock + CPU_CLOCK_DIV * 1 ∧
    (op_txa m st).trace.length = st.trace.length + 1 := by
  simp only [op_txa, op_nop, get_operand_addr]
  simp [CPU_CLOCK_DIV]
  try omega

theorem op_txs_bounds (m : AddressingMode) (st : St) :
    (op_txs m st).cpu.master_clock = st.cpu.master_clock + CPU_CLOCK_DIV * 1 ∧
    (op_txs m st).trace.length = st.trace.length + 1 := by
  simp only [op_txs, op_nop, get_operand_addr]
  simp [CPU_CLOCK_DIV]
  try omega

theorem op_tya_bounds (m : AddressingMode) (st : St) :
    (op_tya m st).cpu.master_clock = st.cpu.master_clock + CPU_CLOCK_DIV * 1 ∧
    (op_tya m st).trace.length = st.trace.length + 1 := by
  simp only [op_tya, op_nop, get_operand_addr]
  simp [CPU_CLOCK_DIV]
  try omega

theorem op_cld_bounds (m : AddressingMode) (st : St) :
    (op_cld m st).cpu.master_clock = st.cpu.master_clock + CPU_CLOCK_DIV * 1 ∧
    (op_cld m st).trace.length = st.trace.length + 1 := by
  simp only [op_cld, op_nop, get_operand_addr]
  simp [CPU_CLOCK_DIV]
  try omega

theorem op_cli_bounds (m : AddressingMode) (st : St) :
    (op_cli m st).cpu.master_clock = st.cpu.master_clock + CPU_CLOCK_DIV * 1 ∧
    (op_cli m st).trace.length = st.trace.length + 1 := by
  simp only [op_cli, op_nop, get_operand_addr]
  simp [CPU_CLOCK_DIV]
  try omega

theorem op_clv_bounds (m : AddressingMode) (st : St) :
    (op_clv m st).cpu.master_clock = st.cpu.master_clock + CPU_CLOCK_DIV * 1 ∧
    (op_clv m st).trace.length = st.trace.length + 1 := by
  simp only [op_clv, op_nop, get_operand_addr]
  simp [CPU_CLOCK_DIV]
  try omega

theorem op_sec_bounds (m : AddressingMode) (st : St) :
    (op_sec m st).cpu.master_clock = st.cpu.master_clock + CPU_CLOCK_DIV * 1 ∧
    (op_sec m st).trace.length = st.trace.length + 1 := by
  simp only [op_sec, op_nop, get_operand_addr]
  simp [CPU_CLOCK_DIV]
  try omega

theorem op_sed_bounds (m : AddressingMode) (st : St) :
    (op_sed m st).cpu.master_clock = st.cpu.master_clock + CPU_CLOCK_DIV * 1 ∧
    (op_sed m st).trace.length = st.trace.length + 1 := by
  simp only [op_sed, op_nop, get_operand_addr]
  simp [CPU_CLOCK_DIV]
  try omega

theorem op_sei_bounds (m : AddressingMode) (st : St) :
    (op_sei m st).cpu.master_clock = st.cpu.master_clock + CPU_CLOCK_DIV * 1 ∧
    (op_sei m st).trace.length = st.trace.length + 1 := by
  simp only [op_sei, op_nop, get_operand_addr]
  simp [CPU_CLOCK_DIV]
  try omega

theorem op_nop_bounds (m : AddressingMode) (st : St) :
    (op_nop m st).cpu.master_clock = st.cpu.master_clock + CPU_CLOCK_DIV * 1 ∧
    (op_nop m st).trace.length = st.trace.length + 1 := by
  simp only [op_nop, op_nop, get_operand_addr]
  simp [CPU_CLOCK_DIV]
  try omega

theorem op_invalid_bounds (m : AddressingMode) (st : St) :
    (op_invalid m st).cpu.master_clock = st.cpu.master_clock + CPU_CLOCK_DIV * 1 ∧
    (op_invalid m st).trace.length = st.trace.length + 1 := by
  simp only [op_invalid, op_nop, get_operand_addr]
  simp [CPU_CLOCK_DIV]
  try omega

theorem op_pha_bounds (m : AddressingMode) (st : St) :
    (op_pha m st).cpu.master_clock = st.cpu.master_clock + CPU_CLOCK_DIV * 2 ∧
    (op_pha m st).trace.length = st.trace.length + 2 := by
  simp only [op_pha, op_nop, get_operand_addr]
  simp [CPU_CLOCK_DIV]
  try omega

theorem op_php_bounds (m : AddressingMode) (st : St) :
    (op_php m st).cpu.master_clock = st.cpu.master_clock + CPU_CLOCK_DIV * 2 ∧
    (op_php m st).trace.length = st.trace.length + 2 := by
  simp only [op_php, op_nop, get_operand_addr]
  simp [CPU_CLOCK_DIV]
  try omega

theorem op_plp_bounds (m : AddressingMode) (st : St) :
    (op_plp m st).cpu.master_clock = st.cpu.master_clock + CPU_CLOCK_DIV * 3 ∧
    (op_plp m st).trace.length = st.trace.length + 3 := by
  simp only [op_plp, op_nop, get_operand_addr]
  simp [CPU_CLOCK_DIV]
  try omega

theorem op_bcs_bounds (m : AddressingMode) (st : St) :
    st.cpu.master_clock + CPU_CLOCK_DIV * 1 ≤ (op_bcs m st).cpu.master_clock ∧
    (op_bcs m st).cpu.master_clock ≤ st.cpu.master_clock + CPU_CLOCK_DIV * 3 ∧
    st.trace.length + 1 ≤ (op_bcs m st).trace.length ∧
    (op_bcs m st).trace.length ≤ st.trace.length + 3 := by
  simp only [op_bcs]
  set q := get_operand_addr AddressingMode.Relative false st with hq
  have hb := opnd_bounds AddressingMode.Relative false st
  rw [← hq] at hb
  have hr := relative_branch_bounds (cpu_load8 q.2 q.1).1 (tick (cpu_load8 q.2 q.1).2)
  split_ifs <;> simp [CPU_CLOCK_DIV, opndCycMin, opndCycMax] at hb hr ⊢ <;> omega

theorem op_beq_bounds (m : AddressingMode) (st : St) :
    st.cpu.master_clock + CPU_CLOCK_DIV * 1 ≤ (op_beq m st).cpu.master_clock ∧
    (op_beq m st).cpu.master_clock ≤ st.cpu.master_clock + CPU_CLOCK_DIV * 3 ∧
    st.trace.length + 1 ≤ (op_beq m st).trace.length ∧
    (op_beq m st).trace.length ≤ st.trace.length + 3 := by
  simp only [op_beq]
  set q := get_operand_addr AddressingMode.Relative false st with hq
  have hb := opnd_bounds AddressingMode.Relative false st
  rw [← hq] at hb
  have hr := relative_branch_bounds (cpu_load8 q.2 q.1).1 (tick (cpu_load8 q.2 q.1).2)
  split_ifs <;> simp [CPU_CLOCK_DIV, opndCycMin, opndCycMax] at hb hr ⊢ <;> omega

theorem op_bmi_bounds (m : AddressingMode) (st : St) :
    st.cpu.master_clock + CPU_CLOCK_DIV * 1 ≤ (op_bmi m st).cpu.master_clock ∧
    (op_bmi m st).cpu.master_clock ≤ st.cpu.master_clock + CPU_CLOCK_DIV * 3 ∧
    st.trace.length + 1 ≤ (op_bmi m st).trace.length ∧
    (op_bmi m st).trace.length ≤ st.trace.length + 3 := by
  simp only [op_bmi]
  set q := get_operand_addr AddressingMode.Relative false st with hq
  have hb := opnd_bounds AddressingMode.Relative false st
  rw [← hq] at hb
  have hr := relative_branch_bounds (cpu_load8 q.2 q.1).1 (tick (cpu_load8 q.2 q.1).2)
  split_ifs <;> simp [CPU_CLOCK_DIV, opndCycMin, opndCycMax] at hb hr ⊢ <;> omega

theorem op_bne_bounds (m : AddressingMode) (st : St) :
    st.cpu.master_clock + CPU_CLOCK_DIV * 1 ≤ (op_bne m st).cpu.master_clock ∧
    (op_bne m st).cpu.master_clock ≤ st.cpu.master_clock + CPU_CLOCK_DIV * 3 ∧
    st.trace.length + 1 ≤ (op_bne m st).trace.length ∧
    (op_bne m st).trace.length ≤ st.trace.length + 3 := by
  simp only [op_bne]
  set q := get_operand_addr AddressingMode.Relative false st with hq
  have hb := opnd_bounds AddressingMode.Relative false st
  rw [← hq] at hb
  have hr := relative_branch_bounds (cpu_load8 q.2 q.1).1 (tick (cpu_load8 q.2 q.1).2)
  split_ifs <;> simp [CPU_CLOCK_DIV, opndCycMin, opndCycMax] at hb hr ⊢ <;> omega

theorem op_bpl_bounds (m : AddressingMode) (st : St) :
    st.cpu.master_clock + CPU_CLOCK_DIV * 1 ≤ (op_bpl m st).cpu.master_clock ∧
    (op_bpl m st).cpu.master_clock ≤ st.cpu.master_clock + CPU_CLOCK_DIV * 3 ∧
    st.trace.length + 1 ≤ (op_bpl m st).trace.length ∧
    (op_bpl m st).trace.length ≤ st.trace.length + 3 := by
  simp only [op_bpl]
  set q := get_operand_addr AddressingMode.Relative false st with hq
  have hb := opnd_bounds AddressingMode.Relative false st
  rw [← hq] at hb
  have hr := relative_branch_bounds (cpu_load8 q.2 q.1).1 (tick (cpu_load8 q.2 q.1).2)
  split_ifs <;> simp [CPU_CLOCK_DIV, opndCycMin, opndCycMax] at hb hr ⊢ <;> omega

theorem op_bvc_bounds (m : AddressingMode) (st : St) :
    st.cpu.master_clock + CPU_CLOCK_DIV * 1 ≤ (op_bvc m st).cpu.master_clock ∧
    (op_bvc m st).cpu.master_clock ≤ st.cpu.master_clock + CPU_CLOCK_DIV * 3 ∧
    st.trace.length + 1 ≤ (op_bvc m st).trace.length ∧
    (op_bvc m st).trace.length ≤ st.trace.length + 3 := by
  simp only [op_bvc]
  set q := get_operand_addr AddressingMode.Relative false st with hq
  have hb := opnd_bounds AddressingMode.Relative false st
  rw [← hq] at hb
  have hr := relative_branch_bounds (cpu_load8 q.2 q.1).1 (tick (cpu_load8 q.2 q.1).2)
  split_ifs <;> simp [CPU_CLOCK_DIV, opndCycMin, opndCycMax] at hb hr ⊢ <;> omega

theorem op_bvs_bounds (m : AddressingMode) (st : St) :
    st.cpu.master_clock + CPU_CLOCK_DIV * 1 ≤ (op_bvs m st).cpu.master_clock ∧
    (op_bvs m st).cpu.master_clock ≤ st.cpu.master_clock + CPU_CLOCK_DIV * 3 ∧
    st.trace.length + 1 ≤ (op_bvs m st).trace.length ∧
    (op_bvs m st).trace.length ≤ st.trace.length + 3 := by
  simp only [op_bvs]
  set q := get_operand_addr AddressingMode.Relative false st with hq
  have hb := opnd_bounds AddressingMode.Relative false st
  rw [← hq] at hb
  have hr := relative_branch_bounds (cpu_load8 q.2 q.1).1 (tick (cpu_load8 q.2 q.1).2)
  split_ifs <;> simp [CPU_CLOCK_DIV, opndCycMin, opndCycMax] at hb hr ⊢ <;> omega

theorem execOp_clock_trace_upper (k : OpKind) (m : AddressingMode) (st : St) :
    (execOp k m st).cpu.master_clock ≤ st.cpu.master_clock + CPU_CLOCK_DIV * 7 ∧
    (execOp k m st).trace.length ≤ st.trace.length + 7 := by
  have hM := opndCycMax_le m
  have hm := opndCycMin_le m
  cases k <;> simp only [execOp]
  case adc =>
    have hb := op_adc_bounds m st
    simp only [CPU_CLOCK_DIV] at hb ⊢
    omega
  case and =>
    have hb := op_and_bounds m st
    simp only [CPU_CLOCK_DIV] at hb ⊢
    omega
  case asl_a =>
    have hb := op_asl_a_bounds m st
    simp only [CPU_CLOCK_DIV] at hb ⊢
    omega
  case asl_m =>
    have hb := op_asl_m_bounds m st
    simp only [CPU_CLOCK_DIV] at hb ⊢
    omega
  case bcc =>
    have hb := op_bcc_bounds m st
    simp only [CPU_CLOCK_DIV] at hb ⊢
    omega
  case bcs =>
    have hb := op_bcs_bounds m st
    simp only [CPU_CLOCK_DIV] at hb ⊢
    omega
  case beq =>
    have hb := op_beq_bounds m st
    simp only [CPU_CLOCK_DIV] at hb ⊢
    omega
  case bit =>
    have hb := op_bit_bounds m st
    simp only [CPU_CLOCK_DIV] at hb ⊢
    omega
  case bmi =>
    have hb := op_bmi_bounds m st
    simp only [CPU_CLOCK_DIV] at hb ⊢
    omega
  case bne =>
    have hb := op_bne_bounds m st
    simp only [CPU_CLOCK_DIV] at hb ⊢
    omega
  case bpl =>
    have hb := op_bpl_bounds m st
    simp only [CPU_CLOCK_DIV] at hb ⊢
    omega
  case brk =>
    have hb := op_brk_bounds m st
    simp only [CPU_CLOCK_DIV] at hb ⊢
    omega
  case bvc =>
    have hb := op_bvc_bounds m st
    simp only [CPU_CLOCK_DIV] at hb ⊢
    omega
  case bvs =>
    have hb := op_bvs_bounds m st
    simp only [CPU_CLOCK_DIV] at hb ⊢
    omega
  case clc =>
    have hb := op_clc_bounds m st
    simp only [CPU_CLOCK_DIV] at hb ⊢
    omega
  case cld =>
    have hb := op_cld_bounds m st
    simp only [CPU_CLOCK_DIV] at hb ⊢
    omega
  case cli =>
    have hb := op_cli_bounds m st
    simp only [CPU_CLOCK_DIV] at hb ⊢
    omega
  case clv =>
    have hb := op_clv_bounds m st
    simp only [CPU_CLOCK_DIV] at hb ⊢
    omega
  case cmp =>
    have hb := op_cmp_bounds m st
    simp only [CPU_CLOCK_DIV] at hb ⊢
    omega
  case cpx =>
    have hb := op_cpx_bounds m st
    simp only [CPU_CLOCK_DIV] at hb ⊢
    omega
  case cpy =>
    have hb := op_cpy_bounds m st
    simp only [CPU_CLOCK_DIV] at hb ⊢
    omega
  case dec =>
    have hb := op_dec_bounds m st
    simp only [CPU_CLOCK_DIV] at hb ⊢
    omega
  case dex =>
    have hb := op_dex_bounds m st
    simp only [CPU_CLOCK_DIV] at hb ⊢
    omega
  case dey =>
    have hb := op_dey_bounds m st
    simp only [CPU_CLOCK_DIV] at hb ⊢
    omega
  case eor =>
    have hb := op_eor_bounds m st
    simp only [CPU_CLOCK_DIV] at hb ⊢
    omega
  case inc =>
    have hb := op_inc_bounds m st
    simp only [CPU_CLOCK_DIV] at hb ⊢
    omega
  case inx =>
    have hb := op_inx_bounds m st
    simp only [CPU_CLOCK_DIV] at hb ⊢
    omega
  case iny =>
    have hb := op_iny_bounds m st
    simp only [CPU_CLOCK_DIV] at hb ⊢
    omega
  case jmp =>
    have hb := op_jmp_bounds m st
    simp only [CPU_CLOCK_DIV] at hb ⊢
    omega
  case jsr =>
    have hb := op_jsr_bounds m st
    simp only [CPU_CLOCK_DIV] at hb ⊢
    omega
  case lda =>
    have hb := op_lda_bounds m st
    simp only [CPU_CLOCK_DIV] at hb ⊢
    omega
  case ldx =>
    have hb := op_ldx_bounds m st
    simp only [CPU_CLOCK_DIV] at hb ⊢
    omega
  case ldy =>
    have hb := op_ldy_bounds m st
    simp only [CPU_CLOCK_DIV] at hb ⊢
    omega
  case lsr_a =>
    have hb := op_lsr_a_bounds m st
    simp only [CPU_CLOCK_DIV] at hb ⊢
    omega
  case lsr_m =>
    have hb := op_lsr_m_bounds m st
    simp only [CPU_CLOCK_DIV] at hb ⊢
    omega
  case nop =>
    have hb := op_nop_bounds m st
    simp only [CPU_CLOCK_DIV] at hb ⊢
    omega
  case ora =>
    have hb := op_ora_bounds m st
    simp only [CPU_CLOCK_DIV] at hb ⊢
    omega
  case pha =>
    have hb := op_pha_bounds m st
    simp only [CPU_CLOCK_DIV] at hb ⊢
    omega
  case php =>
    have hb := op_php_bounds m st
    simp only [CPU_CLOCK_DIV] at hb ⊢
    omega
  case pla =>
    have hb := op_pla_bounds m st
    simp only [CPU_CLOCK_DIV] at hb ⊢
    omega
  case plp =>
    have hb := op_plp_bounds m st
    simp only [CPU_CLOCK_DIV] at hb ⊢
    omega
  case rol_a =>
    have hb := op_rol_a_bounds m st
    simp only [CPU_CLOCK_DIV] at hb ⊢
    omega
  case rol_m =>
    have hb := op_rol_m_bounds m st
    simp only [CPU_CLOCK_DIV] at hb ⊢
    omega
  case ror_a =>
    have hb := op_ror_a_bounds m st
    simp only [CPU_CLOCK_DIV] at hb ⊢
    omega
  case ror_m =>
    have hb := op_ror_m_bounds m st
    simp only [CPU_CLOCK_DIV] at hb ⊢
    omega
  case rti =>
    have hb := op_rti_bounds m st
    simp only [CPU_CLOCK_DIV] at hb ⊢
    omega
  case rts =>
    have hb := op_rts_bounds m st
    simp only [CPU_CLOCK_DIV] at hb ⊢
    omega
  case sbc =>
    have hb := op_sbc_bounds m st
    simp only [CPU_CLOCK_DIV] at hb ⊢
    omega
  case sec =>
    have hb := op_sec_bounds m st
    simp only [CPU_CLOCK_DIV] at hb ⊢
    omega
  case sed =>
    have hb := op_sed_bounds m st
    simp only [CPU_CLOCK_DIV] at hb ⊢
    omega
  case sei =>
    have hb := op_sei_bounds m st
    simp only [CPU_CLOCK_DIV] at hb ⊢
    omega
  case sta =>
    have hb := op_sta_bounds m st
    simp only [CPU_CLOCK_DIV] at hb ⊢
    omega
  case stx =>
    have hb := op_stx_bounds m st
    simp only [CPU_CLOCK_DIV] at hb ⊢
    omega
  case sty =>
    have hb := op_sty_bounds m st
    simp only [CPU_CLOCK_DIV] at hb ⊢
    omega
  case tax =>
    have hb := op_tax_bounds m st
    simp only [CPU_CLOCK_DIV] at hb ⊢
    omega
  case tay =>
    have hb := op_tay_bounds m st
    simp only [CPU_CLOCK_DIV] at hb ⊢
    omega
  case tsx =>
    have hb := op_tsx_bounds m st
    simp only [CPU_CLOCK_DIV] at hb ⊢
    omega
  case txa =>
    have hb := op_txa_bounds m st
    simp only [CPU_CLOCK_DIV] at hb ⊢
    omega
  case txs =>
    have hb := op_txs_bounds m st
    simp only [CPU_CLOCK_DIV] at hb ⊢
    omega
  case tya =>
    have hb := op_tya_bounds m st
    simp only [CPU_CLOCK_DIV] at hb ⊢
    omega
  case invalid =>
    have hb := op_invalid_bounds m st
    simp only [CPU_CLOCK_DIV] at hb ⊢
    omega

theorem execOp_clock_lower (k : OpKind) (m : AddressingMode) (st : St)
    (h : k = OpKind.jmp → m ≠ AddressingMode.Immediate ∧ m ≠ AddressingMode.Relative) :
    st.cpu.master_clock + CPU_CLOCK_DIV * 1 ≤ (execOp k m st).cpu.master_clock := by
  have hM := opndCycMax_le m
  have hm := opndCycMin_le m
  cases k <;> simp only [execOp]
  case adc =>
    have hb := op_adc_bounds m st
    simp only [CPU_CLOCK_DIV] at hb ⊢
    omega
  case and =>
    have hb := op_and_bounds m st
    simp only [CPU_CLOCK_DIV] at hb ⊢
    omega
  case asl_a =>
    have hb := op_asl_a_bounds m st
    simp only [CPU_CLOCK_DIV] at hb ⊢
    omega
  case asl_m =>
    have hb := op_asl_m_bounds m st
    simp only [CPU_CLOCK_DIV] at hb ⊢
    omega
  case bcc =>
    have hb := op_bcc_bounds m st
    simp only [CPU_CLOCK_DIV] at hb ⊢
    omega
  case bcs =>
    have hb := op_bcs_bounds m st
    simp only [CPU_CLOCK_DIV] at hb ⊢
    omega
  case beq =>
    have hb := op_beq_bounds m st
    simp only [CPU_CLOCK_DIV] at hb ⊢
    omega
  case bit =>
    have hb := op_bit_bounds m st
    simp only [CPU_CLOCK_DIV] at hb ⊢
    omega
  case bmi =>
    have hb := op_bmi_bounds m st
    simp only [CPU_CLOCK_DIV] at hb ⊢
    omega
  case bne =>
    have hb := op_bne_bounds m st
    simp only [CPU_CLOCK_DIV] at hb ⊢
    omega
  case bpl =>
    have hb := op_bpl_bounds m st
    simp only [CPU_CLOCK_DIV] at hb ⊢
    omega
  case brk =>
    have hb := op_brk_bounds m st
    simp only [CPU_CLOCK_DIV] at hb ⊢
    omega
  case bvc =>
    have hb := op_bvc_bounds m st
    simp only [CPU_CLOCK_DIV] at hb ⊢
    omega
  case bvs =>
    have hb := op_bvs_bounds m st
    simp only [CPU_CLOCK_DIV] at hb ⊢
    omega
  case clc =>
    have hb := op_clc_bounds m st
    simp only [CPU_CLOCK_DIV] at hb ⊢
    omega
  case cld =>
    have hb := op_cld_bounds m st
    simp only [CPU_CLOCK_DIV] at hb ⊢
    omega
  case cli =>
    have hb := op_cli_bounds m st
    simp only [CPU_CLOCK_DIV] at hb ⊢
    omega
  case clv =>
    have hb := op_clv_bounds m st
    simp only [CPU_CLOCK_DIV] at hb ⊢
    omega
  case cmp =>
    have hb := op_cmp_bounds m st
    simp only [CPU_CLOCK_DIV] at hb ⊢
    omega
  case cpx =>
    have hb := op_cpx_bounds m st
    simp only [CPU_CLOCK_DIV] at hb ⊢
    omega
  case cpy =>
    have hb := op_cpy_bounds m st
    simp only [CPU_CLOCK_DIV] at hb ⊢
    omega
  case dec =>
    have hb := op_dec_bounds m st
    simp only [CPU_CLOCK_DIV] at hb ⊢
    omega
  case dex =>
    have hb := op_dex_bounds m st
    simp only [CPU_CLOCK_DIV] at hb ⊢
    omega
  case dey =>
    have hb := op_dey_bounds m st
    simp only [CPU_CLOCK_DIV] at hb ⊢
    omega
  case eor =>
    have hb := op_eor_bounds m st
    simp only [CPU_CLOCK_DIV] at hb ⊢
    omega
  case inc =>
    have hb := op_inc_bounds m st
    simp only [CPU_CLOCK_DIV] at hb ⊢
    omega
  case inx =>
    have hb := op_inx_bounds m st
    simp only [CPU_CLOCK_DIV] at hb ⊢
    omega
  case iny =>
    have hb := op_iny_bounds m st
    simp only [CPU_CLOCK_DIV] at hb ⊢
    omega
  case jmp =>
    have hb := op_jmp_bounds m st
    have hp := opndCycMin_pos m (h rfl).1 (h rfl).2
    simp only [CPU_CLOCK_DIV] at hb ⊢
    omega
  case jsr =>
    have hb := op_jsr_bounds m st
    simp only [CPU_CLOCK_DIV] at hb ⊢
    omega
  case lda =>
    have hb := op_lda_bounds m st
    simp only [CPU_CLOCK_DIV] at hb ⊢
    omega
  case ldx =>
    have hb := op_ldx_bounds m st
    simp only [CPU_CLOCK_DIV] at hb ⊢
    omega
  case ldy =>
    have hb := op_ldy_bounds m st
    simp only [CPU_CLOCK_DIV] at hb ⊢
    omega
  case lsr_a =>
    have hb := op_lsr_a_bounds m st
    simp only [CPU_CLOCK_DIV] at hb ⊢
    omega
  case lsr_m =>
    have hb := op_lsr_m_bounds m st
    simp only [CPU_CLOCK_DIV] at hb ⊢
    omega
  case nop =>
    have hb := op_nop_bounds m st
    simp only [CPU_CLOCK_DIV] at hb ⊢
    omega
  case ora =>
    have hb := op_ora_bounds m st
    simp only [CPU_CLOCK_DIV] at hb ⊢
    omega
  case pha =>
    have hb := op_pha_bounds m st
    simp only [CPU_CLOCK_DIV] at hb ⊢
    omega
  case php =>
    have hb := op_php_bounds m st
    simp only [CPU_CLOCK_DIV] at hb ⊢
    omega
  case pla =>
    have hb := op_pla_bounds m st
    simp only [CPU_CLOCK_DIV] at hb ⊢
    omega
  case plp =>
    have hb := op_plp_bounds m st
    simp only [CPU_CLOCK_DIV] at hb ⊢
    omega
  case rol_a =>
    have hb := op_rol_a_bounds m st
    simp only [CPU_CLOCK_DIV] at hb ⊢
    omega
  case rol_m =>
    have hb := op_rol_m_bounds m st
    simp only [CPU_CLOCK_DIV] at hb ⊢
    omega
  case ror_a =>
    have hb := op_ror_a_bounds m st
    simp only [CPU_CLOCK_DIV] at hb ⊢
    omega
  case ror_m =>
    have hb := op_ror_m_bounds m st
    simp only [CPU_CLOCK_DIV] at hb ⊢
    omega
  case rti =>
    have hb := op_rti_bounds m st
    simp only [CPU_CLOCK_DIV] at hb ⊢
    omega
  case rts =>
    have hb := op_rts_bounds m st
    simp only [CPU_CLOCK_DIV] at hb ⊢
    omega
  case sbc =>
    have hb := op_sbc_bounds m st
    simp only [CPU_CLOCK_DIV] at hb ⊢
    omega
  case sec =>
    have hb := op_sec_bounds m st
    simp only [CPU_CLOCK_DIV] at hb ⊢
    omega
  case sed =>
    have hb := op_sed_bounds m st
    simp only [CPU_CLOCK_DIV] at hb ⊢
    omega
  case sei =>
    have hb := op_sei_bounds m st
    simp only [CPU_CLOCK_DIV] at hb ⊢
    omega
  case sta =>
    have hb := op_sta_bounds m st
    simp only [CPU_CLOCK_DIV] at hb ⊢
    omega
  case stx =>
    have hb := op_stx_bounds m st
    simp only [CPU_CLOCK_DIV] at hb ⊢
    omega
  case sty =>
    have hb := op_sty_bounds m st
    simp only [CPU_CLOCK_DIV] at hb ⊢
    omega
  case tax =>
    have hb := op_tax_bounds m st
    simp only [CPU_CLOCK_DIV] at hb ⊢
    omega
  case tay =>
    have hb := op_tay_bounds m st
    simp only [CPU_CLOCK_DIV] at hb ⊢
    omega
  case tsx =>
    have hb := op_tsx_bounds m st
    simp only [CPU_CLOCK_DIV] at hb ⊢
    omega
  case txa =>
    have hb := op_txa_bounds m st
    simp only [CPU_CLOCK_DIV] at hb ⊢
    omega
  case txs =>
    have hb := op_txs_bounds m st
    simp only [CPU_CLOCK_DIV] at hb ⊢
    omega
  case tya =>
    have hb := op_tya_bounds m st
    simp only [CPU_CLOCK_DIV] at hb ⊢
    omega
  case invalid =>
    have hb := op_invalid_bounds m st
    simp only [CPU_CLOCK_DIV] at hb ⊢
    omega

set_option maxRecDepth 8192 in
theorem opmap_jmp_modes (c : Nat) :
    (opmap c).kind = OpKind.jmp →
      (opmap c).addr_mode ≠ AddressingMode.Immediate ∧
      (opmap c).addr_mode ≠ AddressingMode.Relative := by
  intro h
  unfold opmap at h ⊢
  rcases hf : CPU_OPS.find? (fun op => op.opcode == c) with _ | op
  · rw [hf] at h
    simp [invalidOp] at h
  · rw [hf] at h ⊢
    have key : ∀ o ∈ CPU_OPS, o.kind = OpKind.jmp →
        o.addr_mode ≠ AddressingMode.Immediate ∧
        o.addr_mode ≠ AddressingMode.Relative := by decide
    exact key op (List.mem_of_find?_eq_some hf) h

theorem step_eq (st : St) :
    execute_single_instruction st =
      execOp (opmap ((cpu_load8 st st.cpu.reg_pc).1)).kind
        (opmap ((cpu_load8 st st.cpu.reg_pc).1)).addr_mode
        (tick (withPC (cpu_load8 st st.cpu.reg_pc).2 ((st.cpu.reg_pc + 1) % 65536))) := by
  simp [execute_single_instruction]

/-- C5: a single `execute_single_instruction` step always terminates (the
interpreter is a total function in this model), performs at most 8 bus
calls (loads plus stores, counted on the bus trace), and charges at least
2 and at most 8 CPU cycles (`master_clock` advances by between
`2 * CPU_CLOCK_DIV` and `8 * CPU_CLOCK_DIV`), for every starting state and
memory, hence for every program placed in PRG-ROM. -/
theorem C5_step_bounds (st : St) :
    (execute_single_instruction st).trace.length ≤ st.trace.length + 8 ∧
    st.cpu.master_clock + 2 * CPU_CLOCK_DIV ≤ (execute_single_instruction st).cpu.master_clock ∧
    (execute_single_instruction st).cpu.master_clock ≤ st.cpu.master_clock + 8 * CPU_CLOCK_DIV := by
  rw [step_eq]
  have hu := execOp_clock_trace_upper (opmap ((cpu_load8 st st.cpu.reg_pc).1)).kind
    (opmap ((cpu_load8 st st.cpu.reg_pc).1)).addr_mode
    (tick (withPC (cpu_load8 st st.cpu.reg_pc).2 ((st.cpu.reg_pc + 1) % 65536)))
  have hl := execOp_clock_lower (opmap ((cpu_load8 st st.cpu.reg_pc).1)).kind
    (opmap ((cpu_load8 st st.cpu.reg_pc).1)).addr_mode
    (tick (withPC (cpu_load8 st st.cpu.reg_pc).2 ((st.cpu.reg_pc + 1) % 65536)))
    (opmap_jmp_modes ((cpu_load8 st st.cpu.reg_pc).1))
  have h1 := hu.1
  have h2 := hu.2
  simp [CPU_CLOCK_DIV] at hl h1 h2 ⊢
  omega

/-! ### Claims C1 to C4 -/

/-- C1: for `AbsoluteX` the source computes
`base_addr + self.reg_x as u16` with the unchecked `+` operator, which
aborts on overflow under debug-profile overflow checks instead of wrapping
modulo 2^16: at base = 0xFFFF (operand bytes FF FF) and X = 1 the checked
semantics returns `none`.  On the same inputs the `AbsoluteY` arm
(`wrapping_add`) resolves to (0xFFFF + 1) mod 2^16 = 0, as the claim
states, and the wrapping (release) model of `AbsoluteX` also resolves
to 0. -/
theorem C1_absolute_x_unchecked_add_overflows :
    get_operand_addr_absolute_x_checked true
        ⟨⟨0, 1, 1, 0xC000, 0, 0, 0⟩, fun _ => 0xFF, []⟩ = none ∧
    (get_operand_addr AddressingMode.AbsoluteY true
        ⟨⟨0, 1, 1, 0xC000, 0, 0, 0⟩, fun _ => 0xFF, []⟩).1 = 0 ∧
    (get_operand_addr AddressingMode.AbsoluteX true
        ⟨⟨0, 1, 1, 0xC000, 0, 0, 0⟩, fun _ => 0xFF, []⟩).1 = 0 := by
  refine ⟨rfl, rfl, rfl⟩

/-- C2: `op_brk` pushes the high and low bytes of the post-fetch PC itself,
not of PC+1 as the claim states.  Executing BRK (opcode 0x00) at
PC = 0xC000 with P = 0x24, S = 0xFD and reset vector 0x8000 stores
0xC0 at 0x01FD and 0x01 at 0x01FC (the post-fetch PC 0xC001, not the
claimed 0xC002), then P ||| 0x30 = 0x34 at 0x01FB, sets I, and loads PC
from 0xFFFE/0xFFFF; the bus trace shows the exact order. -/
theorem C2_brk_pushes_unincremented_pc :
    (execute_single_instruction
        ⟨⟨0, 0, 0, 0xC000, 0xFD, 0x24, 0⟩,
         fun a => if a = 0xFFFF then 0x80 else 0, []⟩).mem 0x1FD = 0xC0 ∧
    (execute_single_instruction
        ⟨⟨0, 0, 0, 0xC000, 0xFD, 0x24, 0⟩,
         fun a => if a = 0xFFFF then 0x80 else 0, []⟩).mem 0x1FC = 0x01 ∧
    (execute_single_instruction
        ⟨⟨0, 0, 0, 0xC000, 0xFD, 0x24, 0⟩,
         fun a => if a = 0xFFFF then 0x80 else 0, []⟩).mem 0x1FC ≠ 0x02 ∧
    (execute_single_instruction
        ⟨⟨0, 0, 0, 0xC000, 0xFD, 0x24, 0⟩,
         fun a => if a = 0xFFFF then 0x80 else 0, []⟩).mem 0x1FB = 0x34 ∧
    (execute_single_instruction
        ⟨⟨0, 0, 0, 0xC000, 0xFD, 0x24, 0⟩,
         fun a => if a = 0xFFFF then 0x80 else 0, []⟩).cpu.reg_pc = 0x8000 ∧
    (execute_single_instruction
        ⟨⟨0, 0, 0, 0xC000, 0xFD, 0x24, 0⟩,
         fun a => if a = 0xFFFF then 0x80 else 0, []⟩).cpu.reg_p = 0x24 ∧
    (execute_single_instruction
        ⟨⟨0, 0, 0, 0xC000, 0xFD, 0x24, 0⟩,
         fun a => if a = 0xFFFF then 0x80 else 0, []⟩).cpu.reg_s = 0xFA ∧
    (execute_single_instruction
        ⟨⟨0, 0, 0, 0xC000, 0xFD, 0x24, 0⟩,
         fun a => if a = 0xFFFF then 0x80 else 0, []⟩).trace =
      [BusEv.load 0xC000, BusEv.store 0x1FD 0xC0, BusEv.store 0x1FC 0x01,
       BusEv.store 0x1FB 0x34, BusEv.load 0xFFFE, BusEv.load 0xFFFF] := by
  decide

/-- C3 (amended): `reset` sets P to exactly the InterruptDisable bit, A, X
and Y to 0, S to 0xFD, PC to the little-endian 16-bit value read from
0xFFFC/0xFFFD, and sets the elapsed cycle count to exactly 7 cycles
(`master_clock = 7 * CPU_CLOCK_DIV`), regardless of its previous value. -/
theorem C3_reset_state (st : St) :
    (reset st).cpu.reg_p = 0x04 ∧
    (reset st).cpu.reg_a = 0 ∧
    (reset st).cpu.reg_x = 0 ∧
    (reset st).cpu.reg_y = 0 ∧
    (reset st).cpu.reg_s = 0xFD ∧
    (reset st).cpu.reg_pc = (st.mem 0xFFFD % 256) * 256 + st.mem 0xFFFC % 256 ∧
    (reset st).cpu.master_clock = 7 * CPU_CLOCK_DIV := by
  simp [reset, Flags.val, CPU_CLOCK_DIV]

/-- C3 counterexample: `reset` assigns `master_clock = 7 * CPU_CLOCK_DIV`
rather than adding 7 cycles, so from a state with 200 elapsed cycles the
count after reset is 7 cycles — not the prior count plus 7 — and the cycle
count decreases across the reset. -/
theorem C3_reset_clock_not_incremented :
    (reset ⟨⟨0, 0, 0, 0, 0, 0, 200 * CPU_CLOCK_DIV⟩, fun _ => 0, []⟩).cpu.master_clock
        = 7 * CPU_CLOCK_DIV ∧
    (reset ⟨⟨0, 0, 0, 0, 0, 0, 200 * CPU_CLOCK_DIV⟩, fun _ => 0, []⟩).cpu.master_clock
        < 200 * CPU_CLOCK_DIV ∧
    (reset ⟨⟨0, 0, 0, 0, 0, 0, 200 * CPU_CLOCK_DIV⟩, fun _ => 0, []⟩).cpu.master_clock
        ≠ 200 * CPU_CLOCK_DIV + 7 * CPU_CLOCK_DIV := by
  refine ⟨rfl, by decide, by decide⟩

/-- C4: fetching an opcode at PC = 0xFFFF aborts under the overflow-checked
(debug-profile) semantics of `self.reg_pc += 1` — the one unchecked PC
advance in the interpreter — rather than wrapping to 0x0000 without
failure; the wrapping (release) model continues with post-fetch
PC = 0x0000 (here with opcode 0xEA, NOP, whose handler leaves PC at 0). -/
theorem C4_pc_fetch_increment_overflows :
    execute_single_instruction_checked
        ⟨⟨0, 0, 0, 0xFFFF, 0, 0, 0⟩, fun _ => 0xEA, []⟩ = none ∧
    (execute_single_instruction
        ⟨⟨0, 0, 0, 0xFFFF, 0, 0, 0⟩, fun _ => 0xEA, []⟩).cpu.reg_pc = 0 := by
  refine ⟨rfl, rfl⟩

/-- C4 (positive part, wrapping model): every operand fetch advances PC
with 16-bit wraparound: for each addressing mode the resolver leaves
PC = (PC + operandLen) mod 2^16. -/
theorem C4_operand_fetch_pc_wraps (m : AddressingMode) (r : Bool) (st : St)
    (h : st.cpu.reg_pc < 65536) :
    ((get_operand_addr m r st).2).cpu.reg_pc
      = (st.cpu.reg_pc + operandLen m) % 65536 :=
  opnd_reg_pc m r st h

/-! ### Claim C9: invalid opcodes -/

/-- The opcode bytes of the 151 official encodings. -/
def officialOpcodes : List Nat := CPU_OPS.map (fun op => op.opcode)

theorem opmap_eq_invalid {c : Nat} (h : c ∉ officialOpcodes) : opmap c = invalidOp := by
  unfold opmap
  have hf : CPU_OPS.find? (fun op => op.opcode == c) = none := by
    rw [List.find?_eq_none]
    intro a ha
    simp only [beq_iff_eq]
    intro heq
    exact h (List.mem_map.mpr ⟨a, ha, heq⟩)
  rw [hf]
  rfl

/-- C9: executing any opcode byte outside the 151 official encodings
behaves as a two-cycle NOP: the only bus traffic is the opcode fetch and
one dummy read at the post-fetch PC, no memory write occurs, no register
other than PC changes (PC advances past the opcode), and exactly 2 cycles
are charged. -/
theorem C9_invalid_opcode_is_two_cycle_nop (st : St)
    (h : st.mem (st.cpu.reg_pc % 65536) % 256 ∉ officialOpcodes) :
    (execute_single_instruction st).cpu.reg_a = st.cpu.reg_a ∧
    (execute_single_instruction st).cpu.reg_x = st.cpu.reg_x ∧
    (execute_single_instruction st).cpu.reg_y = st.cpu.reg_y ∧
    (execute_single_instruction st).cpu.reg_s = st.cpu.reg_s ∧
    (execute_single_instruction st).cpu.reg_p = st.cpu.reg_p ∧
    (execute_single_instruction st).cpu.reg_pc = (st.cpu.reg_pc + 1) % 65536 ∧
    (execute_single_instruction st).cpu.master_clock
        = st.cpu.master_clock + 2 * CPU_CLOCK_DIV ∧
    (execute_single_instruction st).mem = st.mem ∧
    (execute_single_instruction st).trace = st.trace ++
      [BusEv.load (st.cpu.reg_pc % 65536), BusEv.load ((st.cpu.reg_pc + 1) % 65536)] := by
  have hop : (cpu_load8 st st.cpu.reg_pc).1 ∉ officialOpcodes := by simpa using h
  rw [step_eq, opmap_eq_invalid hop]
  simp [invalidOp, execOp, op_invalid, op_nop, get_operand_addr, CPU_CLOCK_DIV]

/-- Witness for C9 at the unofficial opcode 0x02. -/
theorem C9_invalid_opcode_is_two_cycle_nop_witness :
    ((⟨⟨1, 2, 3, 0x0400, 5, 6, 7⟩, fun _ => 0x02, []⟩ : St).mem (0x0400 % 65536) % 256
        ∉ officialOpcodes) ∧
    (execute_single_instruction
        ⟨⟨1, 2, 3, 0x0400, 5, 6, 7⟩, fun _ => 0x02, []⟩).cpu.reg_p = 6 ∧
    (execute_single_instruction
        ⟨⟨1, 2, 3, 0x0400, 5, 6, 7⟩, fun _ => 0x02, []⟩).cpu.master_clock
        = 7 + 2 * CPU_CLOCK_DIV := by
  refine ⟨by decide, ?_, ?_⟩
  · have h := C9_invalid_opcode_is_two_cycle_nop
      ⟨⟨1, 2, 3, 0x0400, 5, 6, 7⟩, fun _ => 0x02, []⟩ (by decide)
    simpa using h.2.2.2.2.1
  · have h := C9_invalid_opcode_is_two_cycle_nop
      ⟨⟨1, 2, 3, 0x0400, 5, 6, 7⟩, fun _ => 0x02, []⟩ (by decide)
    simpa using h.2.2.2.2.2.2.1

/-! ### Claim C7: JMP indirect page-wrap -/

/-- C7: for JMP with Indirect addressing (opcode 0x6C) whose pointer low
byte is 0xFF, the effective address's low byte is read at the pointer and
its high byte is read at `pointer & 0xFF00` (the start of the same page,
`ptr_high * 256`), not at `pointer + 1`; PC is then set to that effective
address.  The bus trace records the two pointer fetches and the two
effective-address reads, the last one at the page start. -/
theorem C7_jmp_indirect_page_wrap (st : St)
    (hpc : st.cpu.reg_pc < 65536)
    (hop : st.mem st.cpu.reg_pc % 256 = 0x6C)
    (hlo : st.mem ((st.cpu.reg_pc + 1) % 65536) % 256 = 0xFF) :
    (execute_single_instruction st).cpu.reg_pc =
      (st.mem (st.mem ((st.cpu.reg_pc + 2) % 65536) % 256 * 256) % 256) * 256
        + st.mem (st.mem ((st.cpu.reg_pc + 2) % 65536) % 256 * 256 + 0xFF) % 256 ∧
    (execute_single_instruction st).trace = st.trace ++
      [BusEv.load st.cpu.reg_pc,
       BusEv.load ((st.cpu.reg_pc + 1) % 65536),
       BusEv.load ((st.cpu.reg_pc + 2) % 65536),
       BusEv.load (st.mem ((st.cpu.reg_pc + 2) % 65536) % 256 * 256 + 0xFF),
       BusEv.load (st.mem ((st.cpu.reg_pc + 2) % 65536) % 256 * 256)] := by
  have hpc0 : st.cpu.reg_pc % 65536 = st.cpu.reg_pc := Nat.mod_eq_of_lt hpc
  have hcode : (cpu_load8 st st.cpu.reg_pc).1 = 0x6C := by
    simp [hpc0, hop]
  have hope : opmap 0x6C = CpuOp.mk "JMP" 0x6C AddressingMode.Indirect OpKind.jmp := by
    decide
  have e1 : ((st.cpu.reg_pc + 1) % 65536 + 1) % 65536 = (st.cpu.reg_pc + 2) % 65536 := by
    omega
  have hhi : st.mem ((st.cpu.reg_pc + 2) % 65536) % 256 < 256 :=
    Nat.mod_lt _ (by norm_num)
  have e2 : (st.mem ((st.cpu.reg_pc + 2) % 65536) % 256 * 256 + 255) % 65536
      = st.mem ((st.cpu.reg_pc + 2) % 65536) % 256 * 256 + 255 := by
    omega
  have e3 : (st.mem ((st.cpu.reg_pc + 2) % 65536) % 256 * 256) % 65536
      = st.mem ((st.cpu.reg_pc + 2) % 65536) % 256 * 256 := by
    omega
  rw [step_eq, hcode, hope]
  simp [execOp, op_jmp, get_operand_addr, hpc0, hop, hlo, e1, e2, e3]

/-- Witness for C7: `JMP ($02FF)` at PC = 0x0300 with memory holding 0xCD
at 0x02FF and 0xAB at 0x0200 jumps to 0xABCD (high byte from 0x0200, the
page start, not 0x0300). -/
theorem C7_jmp_indirect_page_wrap_witness :
    ((⟨⟨0, 0, 0, 0x300, 0, 0, 0⟩,
        fun a => if a = 0x300 then 0x6C else if a = 0x301 then 0xFF
          else if a = 0x302 then 0x02 else if a = 0x200 then 0xAB
          else if a = 0x2FF then 0xCD else 0, []⟩ : St).cpu.reg_pc < 65536) ∧
    (execute_single_instruction
        ⟨⟨0, 0, 0, 0x300, 0, 0, 0⟩,
         fun a => if a = 0x300 then 0x6C else if a = 0x301 then 0xFF
           else if a = 0x302 then 0x02 else if a = 0x200 then 0xAB
           else if a = 0x2FF then 0xCD else 0, []⟩).cpu.reg_pc = 0xABCD := by
  refine ⟨by decide, ?_⟩
  have h := C7_jmp_indirect_page_wrap
    ⟨⟨0, 0, 0, 0x300, 0, 0, 0⟩,
     fun a => if a = 0x300 then 0x6C else if a = 0x301 then 0xFF
       else if a = 0x302 then 0x02 else if a = 0x200 then 0xAB
       else if a = 0x2FF then 0xCD else 0, []⟩
    (by decide) (by decide) (by decide)
  simpa using h.1

/-! ### Claim C8: ADC with carry clear -/

/-- Boolean-valued version of the `set_flag` computation on `P`, used to
state decidable facts about flag updates. -/
def setFlagB (p : Nat) (flag : Flags) (b : Bool) : Nat :=
  if b then p ||| flag.val else p &&& (255 ^^^ flag.val)

theorem setFlagP_eq_setFlagB (p : Nat) (f : Flags) (v : Prop) [Decidable v] :
    setFlagP p f v = setFlagB p f (decide v) := by
  unfold setFlagP setFlagB
  by_cases h : v <;> simp [h]

set_option maxRecDepth 16384 in
theorem setFlagB_adc_chain_read : ∀ q < 256, ∀ c z n v : Bool,
    (setFlagB (setFlagB (setFlagB (setFlagB q Flags.Carry c) Flags.Zero z)
        Flags.Negative n) Flags.Overflow v &&& 1 ≠ 0 ↔ c = true) ∧
    (setFlagB (setFlagB (setFlagB (setFlagB q Flags.Carry c) Flags.Zero z)
        Flags.Negative n) Flags.Overflow v &&& 2 ≠ 0 ↔ z = true) ∧
    (setFlagB (setFlagB (setFlagB (setFlagB q Flags.Carry c) Flags.Zero z)
        Flags.Negative n) Flags.Overflow v &&& 128 ≠ 0 ↔ n = true) ∧
    (setFlagB (setFlagB (setFlagB (setFlagB q Flags.Carry c) Flags.Zero z)
        Flags.Negative n) Flags.Overflow v &&& 64 ≠ 0 ↔ v = true) := by
  decide

/-- Reading the C, Z, N, V bits back out of the flag-update chain that
`op_adc`/`op_sbc` perform on `P`. -/
theorem adc_flag_read (p : Nat) (hp : p < 256)
    (c z n v : Prop) [Decidable c] [Decidable z] [Decidable n] [Decidable v] :
    (setFlagP (setFlagP (setFlagP (setFlagP p Flags.Carry c) Flags.Zero z)
        Flags.Negative n) Flags.Overflow v &&& 1 ≠ 0 ↔ c) ∧
    (setFlagP (setFlagP (setFlagP (setFlagP p Flags.Carry c) Flags.Zero z)
        Flags.Negative n) Flags.Overflow v &&& 2 ≠ 0 ↔ z) ∧
    (setFlagP (setFlagP (setFlagP (setFlagP p Flags.Carry c) Flags.Zero z)
        Flags.Negative n) Flags.Overflow v &&& 128 ≠ 0 ↔ n) ∧
    (setFlagP (setFlagP (setFlagP (setFlagP p Flags.Carry c) Flags.Zero z)
        Flags.Negative n) Flags.Overflow v &&& 64 ≠ 0 ↔ v) := by
  have hk := setFlagB_adc_chain_read p hp (decide c) (decide z) (decide n) (decide v)
  simp only [setFlagP_eq_setFlagB]
  simpa using hk

/-- C8: executing ADC (immediate encoding, opcode 0x69) with the Carry
flag clear leaves the accumulator at (A + M) mod 256, sets C iff
A + M ≥ 256, Z iff the 8-bit result is 0, N iff bit 7 of the 8-bit result
is set, and V per the signed-overflow rule
`(~(A^M) & (A^result)) & 0x80 ≠ 0`. -/
theorem C8_adc_carry_clear (st : St)
    (hpc : st.cpu.reg_pc < 65536)
    (hop : st.mem st.cpu.reg_pc % 256 = 0x69)
    (ha : st.cpu.reg_a < 256)
    (hp : st.cpu.reg_p < 256)
    (hc : ¬ getFlag st Flags.Carry) :
    (execute_single_instruction st).cpu.reg_a
        = (st.cpu.reg_a + st.mem ((st.cpu.reg_pc + 1) % 65536) % 256) % 256 ∧
    (getFlag (execute_single_instruction st) Flags.Carry ↔
        256 ≤ st.cpu.reg_a + st.mem ((st.cpu.reg_pc + 1) % 65536) % 256) ∧
    (getFlag (execute_single_instruction st) Flags.Zero ↔
        (st.cpu.reg_a + st.mem ((st.cpu.reg_pc + 1) % 65536) % 256) % 256 = 0) ∧
    (getFlag (execute_single_instruction st) Flags.Negative ↔
        128 ≤ (st.cpu.reg_a + st.mem ((st.cpu.reg_pc + 1) % 65536) % 256) % 256) ∧
    (getFlag (execute_single_instruction st) Flags.Overflow ↔
        (255 ^^^ (st.cpu.reg_a ^^^ st.mem ((st.cpu.reg_pc + 1) % 65536) % 256)) &&&
          (st.cpu.reg_a ^^^
            (st.cpu.reg_a + st.mem ((st.cpu.reg_pc + 1) % 65536) % 256) % 256) &&&
          0x80 ≠ 0) := by
  have hpc0 : st.cpu.reg_pc % 65536 = st.cpu.reg_pc := Nat.mod_eq_of_lt hpc
  have hcode : (cpu_load8 st st.cpu.reg_pc).1 = 0x69 := by
    simp [hpc0, hop]
  have hope : opmap 0x69 = CpuOp.mk "ADC" 0x69 AddressingMode.Immediate OpKind.adc := by
    decide
  have hcz : st.cpu.reg_p &&& 1 = 0 := by
    simpa [getFlag, Flags.val] using hc
  have hM : st.mem ((st.cpu.reg_pc + 1) % 65536) % 256 < 256 :=
    Nat.mod_lt _ (by norm_num)
  have hcif : (if st.cpu.reg_p &&& 1 ≠ 0 then (1 : Nat) else 0) = 0 := by
    simp [hcz]
  have hmm1 : ∀ a : Nat, a % 65536 % 65536 = a % 65536 := fun a => by omega
  rw [step_eq, hcode, hope]
  simp only [execOp, op_adc, get_operand_addr, cpu_load8, tick, withPC, withA, setFlag,
    withP, getFlag, Flags.val, CPU_CLOCK_DIV, Nat.mod_eq_of_lt ha, hcif, hmm1,
    Nat.add_zero]
  have hread := adc_flag_read st.cpu.reg_p hp
  refine ⟨?_, ?_, ?_, ?_, ?_⟩
  · omega
  · rw [(hread _ _ _ _).1]
    omega
  · rw [(hread _ _ _ _).2.1]
    omega
  · rw [(hread _ _ _ _).2.2.1]
    omega
  · rw [(hread _ _ _ _).2.2.2]
    have eres8 : (st.mem ((st.cpu.reg_pc + 1) % 65536) % 256 + st.cpu.reg_a) % 65536 % 256
        = (st.cpu.reg_a + st.mem ((st.cpu.reg_pc + 1) % 65536) % 256) % 256 := by
      omega
    rw [eres8]

/-- Witness for C8: ADC #$03 at PC = 0x0200 with A = 5 and C clear gives
A = 8. -/
theorem C8_adc_carry_clear_witness :
    ((⟨⟨5, 0, 0, 0x200, 0, 0, 0⟩,
        fun a => if a = 0x200 then 0x69 else if a = 0x201 then 0x03 else 0,
        []⟩ : St).cpu.reg_pc < 65536) ∧
    (¬ getFlag ⟨⟨5, 0, 0, 0x200, 0, 0, 0⟩,
        fun a => if a = 0x200 then 0x69 else if a = 0x201 then 0x03 else 0,
        []⟩ Flags.Carry) ∧
    (execute_single_instruction
        ⟨⟨5, 0, 0, 0x200, 0, 0, 0⟩,
         fun a => if a = 0x200 then 0x69 else if a = 0x201 then 0x03 else 0,
         []⟩).cpu.reg_a = 8 := by
  refine ⟨by decide, by decide, ?_⟩
  have h := C8_adc_carry_clear
    ⟨⟨5, 0, 0, 0x200, 0, 0, 0⟩,
     fun a => if a = 0x200 then 0x69 else if a = 0x201 then 0x03 else 0, []⟩
    (by decide) (by decide) (by decide) (by decide) (by decide)
  simpa using h.1

/-! ### Claim C6: conditional branches -/

/-- The flag condition tested by each conditional-branch opcode
(BPL, BMI, BVC, BVS, BCC, BCS, BNE, BEQ). -/
def branchCond (b : Nat) (st : St) : Prop :=
  if b = 0x10 then ¬ getFlag st Flags.Negative
  else if b = 0x30 then getFlag st Flags.Negative
  else if b = 0x50 then ¬ getFlag st Flags.Overflow
  else if b = 0x70 then getFlag st Flags.Overflow
  else if b = 0x90 then ¬ getFlag st Flags.Carry
  else if b = 0xB0 then getFlag st Flags.Carry
  else if b = 0xD0 then ¬ getFlag st Flags.Zero
  else if b = 0xF0 then getFlag st Flags.Zero
  else False

instance branchCondDecidable (b : Nat) (st : St) : Decidable (branchCond b st) := by
  unfold branchCond
  infer_instance

/-- C6: for every conditional branch instruction: condition false charges
exactly 2 cycles total (opcode fetch plus offset read); condition true adds
a dummy read at the post-operand PC and sets PC to PC plus the
sign-extended offset (3 cycles); and if the new PC's high byte differs an
extra dummy read at `(old_PC & 0xFF00) | (new_PC & 0xFF)` is issued and one
more cycle charged (4 cycles). -/
theorem C6_branch_timing (st : St) (b : Nat)
    (hb : b = 0x10 ∨ b = 0x30 ∨ b = 0x50 ∨ b = 0x70 ∨
          b = 0x90 ∨ b = 0xB0 ∨ b = 0xD0 ∨ b = 0xF0)
    (hpc : st.cpu.reg_pc < 65536)
    (hop : st.mem st.cpu.reg_pc % 256 = b) :
    (¬ branchCond b st →
        (execute_single_instruction st).cpu.master_clock
            = st.cpu.master_clock + 2 * CPU_CLOCK_DIV ∧
        (execute_single_instruction st).cpu.reg_pc = (st.cpu.reg_pc + 2) % 65536 ∧
        (execute_single_instruction st).trace = st.trace ++
          [BusEv.load st.cpu.reg_pc, BusEv.load ((st.cpu.reg_pc + 1) % 65536)]) ∧
    (branchCond b st →
      (((st.cpu.reg_pc + 2) % 65536 +
            (if st.mem ((st.cpu.reg_pc + 1) % 65536) % 256 / 128 % 2 ≠ 0 then
              0xFF00 + st.mem ((st.cpu.reg_pc + 1) % 65536) % 256
             else st.mem ((st.cpu.reg_pc + 1) % 65536) % 256)) % 65536 / 256
          = (st.cpu.reg_pc + 2) % 65536 / 256 →
        (execute_single_instruction st).cpu.master_clock
            = st.cpu.master_clock + 3 * CPU_CLOCK_DIV ∧
        (execute_single_instruction st).cpu.reg_pc
            = ((st.cpu.reg_pc + 2) % 65536 +
                (if st.mem ((st.cpu.reg_pc + 1) % 65536) % 256 / 128 % 2 ≠ 0 then
                  0xFF00 + st.mem ((st.cpu.reg_pc + 1) % 65536) % 256
                 else st.mem ((st.cpu.reg_pc + 1) % 65536) % 256)) % 65536 ∧
        (execute_single_instruction st).trace = st.trace ++
          [BusEv.load st.cpu.reg_pc, BusEv.load ((st.cpu.reg_pc + 1) % 65536),
           BusEv.load ((st.cpu.reg_pc + 2) % 65536)]) ∧
      (((st.cpu.reg_pc + 2) % 65536 +
            (if st.mem ((st.cpu.reg_pc + 1) % 65536) % 256 / 128 % 2 ≠ 0 then
              0xFF00 + st.mem ((st.cpu.reg_pc + 1) % 65536) % 256
             else st.mem ((st.cpu.reg_pc + 1) % 65536) % 256)) % 65536 / 256
          ≠ (st.cpu.reg_pc + 2) % 65536 / 256 →
        (execute_single_instruction st).cpu.master_clock
            = st.cpu.master_clock + 4 * CPU_CLOCK_DIV ∧
        (execute_single_instruction st).cpu.reg_pc
            = ((st.cpu.reg_pc + 2) % 65536 +
                (if st.mem ((st.cpu.reg_pc + 1) % 65536) % 256 / 128 % 2 ≠ 0 then
                  0xFF00 + st.mem ((st.cpu.reg_pc + 1) % 65536) % 256
                 else st.mem ((st.cpu.reg_pc + 1) % 65536) % 256)) % 65536 ∧
        (execute_single_instruction st).trace = st.trace ++
          [BusEv.load st.cpu.reg_pc, BusEv.load ((st.cpu.reg_pc + 1) % 65536),
           BusEv.load ((st.cpu.reg_pc + 2) % 65536),
           BusEv.load ((st.cpu.reg_pc + 2) % 65536 / 256 * 256 +
              ((st.cpu.reg_pc + 2) % 65536 +
                (if st.mem ((st.cpu.reg_pc + 1) % 65536) % 256 / 128 % 2 ≠ 0 then
                  0xFF00 + st.mem ((st.cpu.reg_pc + 1) % 65536) % 256
                 else st.mem ((st.cpu.reg_pc + 1) % 65536) % 256)) % 65536 % 256)])) := by
  have hmm1 : ∀ a : Nat, a % 65536 % 65536 = a % 65536 := fun a => by omega
  have hmm2 : ∀ a : Nat, a % 256 % 256 = a % 256 := fun a => by omega
  have em2 : (st.cpu.reg_pc % 65536 + 1) % 65536 = (st.cpu.reg_pc + 1) % 65536 := by omega
  have em3 : ((st.cpu.reg_pc + 1) % 65536 + 1) % 65536 = (st.cpu.reg_pc + 2) % 65536 := by
    omega
  rcases hb with rfl | rfl | rfl | rfl | rfl | rfl | rfl | rfl
  · have hcode : (cpu_load8 st st.cpu.reg_pc).1 = 0x10 := by
      simp [Nat.mod_eq_of_lt hpc, hop]
    have hope : opmap 0x10 = CpuOp.mk "BPL" 0x10 AddressingMode.Relative OpKind.bpl := by
      decide
    rw [step_eq, hcode, hope]
    simp only [execOp]
    unfold op_bpl
    simp only [branchCond, getFlag, Flags.val, get_operand_addr, cpu_load8, tick, withPC,
      relative_branch, hmm1, hmm2, em2, CPU_CLOCK_DIV, Nat.mod_eq_of_lt hpc, reduceIte]
    by_cases hcnd : st.cpu.reg_p &&& 128 ≠ 0 <;>
      simp only [hcnd, not_true, not_false_iff, not_not, if_true, if_false,
        ite_true, ite_false, false_implies, true_implies, if_neg, if_pos] <;>
      (try simp) <;>
      constructor <;>
      (try intro hcr) <;>
      simp_all [List.append_assoc] <;>
      (try omega)
  · have hcode : (cpu_load8 st st.cpu.reg_pc).1 = 0x30 := by
      simp [Nat.mod_eq_of_lt hpc, hop]
    have hope : opmap 0x30 = CpuOp.mk "BMI" 0x30 AddressingMode.Relative OpKind.bmi := by
      decide
    rw [step_eq, hcode, hope]
    simp only [execOp]
    unfold op_bmi
    simp only [branchCond, getFlag, Flags.val, get_operand_addr, cpu_load8, tick, withPC,
      relative_branch, hmm1, hmm2, em2, CPU_CLOCK_DIV, Nat.mod_eq_of_lt hpc, reduceIte]
    by_cases hcnd : st.cpu.reg_p &&& 128 ≠ 0 <;>
      simp only [hcnd, not_true, not_false_iff, not_not, if_true, if_false,
        ite_true, ite_false, false_implies, true_implies, if_neg, if_pos] <;>
      (try simp) <;>
      constructor <;>
      (try intro hcr) <;>
      simp_all [List.append_assoc] <;>
      (try omega)
  · have hcode : (cpu_load8 st st.cpu.reg_pc).1 = 0x50 := by
      simp [Nat.mod_eq_of_lt hpc, hop]
    have hope : opmap 0x50 = CpuOp.mk "BVC" 0x50 AddressingMode.Relative OpKind.bvc := by
      decide
    rw [step_eq, hcode, hope]
    simp only [execOp]
    unfold op_bvc
    simp only [branchCond, getFlag, Flags.val, get_operand_addr, cpu_load8, tick, withPC,
      relative_branch, hmm1, hmm2, em2, CPU_CLOCK_DIV, Nat.mod_eq_of_lt hpc, reduceIte]
    by_cases hcnd : st.cpu.reg_p &&& 64 ≠ 0 <;>
      simp only [hcnd, not_true, not_false_iff, not_not, if_true, if_false,
        ite_true, ite_false, false_implies, true_implies, if_neg, if_pos] <;>
      (try simp) <;>
      constructor <;>
      (try intro hcr) <;>
      simp_all [List.append_assoc] <;>
      (try omega)
  · have hcode : (cpu_load8 st st.cpu.reg_pc).1 = 0x70 := by
      simp [Nat.mod_eq_of_lt hpc, hop]
    have hope : opmap 0x70 = CpuOp.mk "BVS" 0x70 AddressingMode.Relative OpKind.bvs := by
      decide
    rw [step_eq, hcode, hope]
    simp only [execOp]
    unfold op_bvs
    simp only [branchCond, getFlag, Flags.val, get_operand_addr, cpu_load8, tick, withPC,
      relative_branch, hmm1, hmm2, em2, CPU_CLOCK_DIV, Nat.mod_eq_of_lt hpc, reduceIte]
    by_cases hcnd : st.cpu.reg_p &&& 64 ≠ 0 <;>
      simp only [hcnd, not_true, not_false_iff, not_not, if_true, if_false,
        ite_true, ite_false, false_implies, true_implies, if_neg, if_pos] <;>
      (try simp) <;>
      constructor <;>
      (try intro hcr) <;>
      simp_all [List.append_assoc] <;>
      (try omega)
  · have hcode : (cpu_load8 st st.cpu.reg_pc).1 = 0x90 := by
      simp [Nat.mod_eq_of_lt hpc, hop]
    have hope : opmap 0x90 = CpuOp.mk "BCC" 0x90 AddressingMode.Relative OpKind.bcc := by
      decide
    rw [step_eq, hcode, hope]
    simp only [execOp]
    unfold op_bcc
    simp only [branchCond, getFlag, Flags.val, get_operand_addr, cpu_load8, tick, withPC,
      relative_branch, hmm1, hmm2, em2, CPU_CLOCK_DIV, Nat.mod_eq_of_lt hpc, reduceIte]
    by_cases hcnd : st.cpu.reg_p &&& 1 ≠ 0 <;>
      simp only [hcnd, not_true, not_false_iff, not_not, if_true, if_false,
        ite_true, ite_false, false_implies, true_implies, if_neg, if_pos] <;>
      (try simp) <;>
      constructor <;>
      (try intro hcr) <;>
      simp_all [List.append_assoc] <;>
      (try omega)
  · have hcode : (cpu_load8 st st.cpu.reg_pc).1 = 0xB0 := by
      simp [Nat.mod_eq_of_lt hpc, hop]
    have hope : opmap 0xB0 = CpuOp.mk "BCS" 0xB0 AddressingMode.Relative OpKind.bcs := by
      decide
    rw [step_eq, hcode, hope]
    simp only [execOp]
    unfold op_bcs
    simp only [branchCond, getFlag, Flags.val, get_operand_addr, cpu_load8, tick, withPC,
      relative_branch, hmm1, hmm2, em2, CPU_CLOCK_DIV, Nat.mod_eq_of_lt hpc, reduceIte]
    by_cases hcnd : st.cpu.reg_p &&& 1 ≠ 0 <;>
      simp only [hcnd, not_true, not_false_iff, not_not, if_true, if_false,
        ite_true, ite_false, false_implies, true_implies, if_neg, if_pos] <;>
      (try simp) <;>
      constructor <;>
      (try intro hcr) <;>
      simp_all [List.append_assoc] <;>
      (try omega)
  · have hcode : (cpu_load8 st st.cpu.reg_pc).1 = 0xD0 := by
      simp [Nat.mod_eq_of_lt hpc, hop]
    have hope : opmap 0xD0 = CpuOp.mk "BNE" 0xD0 AddressingMode.Relative OpKind.bne := by
      decide
    rw [step_eq, hcode, hope]
    simp only [execOp]
    unfold op_bne
    simp only [branchCond, getFlag, Flags.val, get_operand_addr, cpu_load8, tick, withPC,
      relative_branch, hmm1, hmm2, em2, CPU_CLOCK_DIV, Nat.mod_eq_of_lt hpc, reduceIte]
    by_cases hcnd : st.cpu.reg_p &&& 2 ≠ 0 <;>
      simp only [hcnd, not_true, not_false_iff, not_not, if_true, if_false,
        ite_true, ite_false, false_implies, true_implies, if_neg, if_pos] <;>
      (try simp) <;>
      constructor <;>
      (try intro hcr) <;>
      simp_all [List.append_assoc] <;>
      (try omega)
  · have hcode : (cpu_load8 st st.cpu.reg_pc).1 = 0xF0 := by
      simp [Nat.mod_eq_of_lt hpc, hop]
    have hope : opmap 0xF0 = CpuOp.mk "BEQ" 0xF0 AddressingMode.Relative OpKind.beq := by
      decide
    rw [step_eq, hcode, hope]
    simp only [execOp]
    unfold op_beq
    simp only [branchCond, getFlag, Flags.val, get_operand_addr, cpu_load8, tick, withPC,
      relative_branch, hmm1, hmm2, em2, CPU_CLOCK_DIV, Nat.mod_eq_of_lt hpc, reduceIte]
    by_cases hcnd : st.cpu.reg_p &&& 2 ≠ 0 <;>
      simp only [hcnd, not_true, not_false_iff, not_not, if_true, if_false,
        ite_true, ite_false, false_implies, true_implies, if_neg, if_pos] <;>
      (try simp) <;>
      constructor <;>
      (try intro hcr) <;>
      simp_all [List.append_assoc] <;>
      (try omega)

/-- Witness for C6: BNE +10 at PC = 0x01FD with Z clear branches across a
page (0x01FF to 0x0209) and charges 4 cycles. -/
theorem C6_branch_timing_witness :
    ((⟨⟨0, 0, 0, 0x1FD, 0, 0, 0⟩,
        fun a => if a = 0x1FD then 0xD0 else if a = 0x1FE then 0x0A else 0,
        []⟩ : St).cpu.reg_pc < 65536) ∧
    branchCond 0xD0 ⟨⟨0, 0, 0, 0x1FD, 0, 0, 0⟩,
        fun a => if a = 0x1FD then 0xD0 else if a = 0x1FE then 0x0A else 0, []⟩ ∧
    (execute_single_instruction
        ⟨⟨0, 0, 0, 0x1FD, 0, 0, 0⟩,
         fun a => if a = 0x1FD then 0xD0 else if a = 0x1FE then 0x0A else 0,
         []⟩).cpu.master_clock = 4 * CPU_CLOCK_DIV ∧
    (execute_single_instruction
        ⟨⟨0, 0, 0, 0x1FD, 0, 0, 0⟩,
         fun a => if a = 0x1FD then 0xD0 else if a = 0x1FE then 0x0A else 0,
         []⟩).cpu.reg_pc = 0x209 := by
  have h := C6_branch_timing
    ⟨⟨0, 0, 0, 0x1FD, 0, 0, 0⟩,
     fun a => if a = 0x1FD then 0xD0 else if a = 0x1FE then 0x0A else 0, []⟩
    0xD0 (by tauto) (by decide) (by decide)
  refine ⟨by decide, by decide, ?_, ?_⟩
  · have hc := ((h.2 (by decide)).2 (by decide)).1
    simpa [CPU_CLOCK_DIV] using hc
  · have hc := ((h.2 (by decide)).2 (by decide)).2.1
    simpa using hc

end NesRs
